import Mathlib

/-!
# Lumen framework: resource transitions, render passes, reduction scheduling, buffers

A shallow embedding of `src/Framework/Utils.cpp` and `src/Framework/Buffer.cpp`.

Conventions of the embedding:

* Vulkan enumerations and flag sets are natural numbers carrying the numeric value the
  Vulkan headers give them; a `switch` over an enumeration is an `if`/`else if` chain in
  the order of the `case` labels (every case ends in `break`, there is no fall-through).
* Commands recorded into a `VkCommandBuffer` are collected, in order, in a list.
* A fatal error (assertion, rejected API call) is the `error` branch of `Except`.
* A loop that the source does not bound is run with explicit fuel and returns `none`
  when the fuel runs out.
-/

namespace Lumen

/-! ## Vulkan constants (numeric values of `vulkan_core.h`) -/

abbrev VkImageLayout := Nat
abbrev VkAccessFlags := Nat
abbrev VkPipelineStageFlags := Nat
abbrev VkMemoryPropertyFlags := Nat
abbrev VkBufferUsageFlags := Nat
abbrev VkFormat := Nat
abbrev VkDeviceSize := Nat

def VK_IMAGE_LAYOUT_UNDEFINED : VkImageLayout := 0
def VK_IMAGE_LAYOUT_GENERAL : VkImageLayout := 1
def VK_IMAGE_LAYOUT_COLOR_ATTACHMENT_OPTIMAL : VkImageLayout := 2
def VK_IMAGE_LAYOUT_DEPTH_STENCIL_ATTACHMENT_OPTIMAL : VkImageLayout := 3
def VK_IMAGE_LAYOUT_DEPTH_STENCIL_READ_ONLY_OPTIMAL : VkImageLayout := 4
def VK_IMAGE_LAYOUT_SHADER_READ_ONLY_OPTIMAL : VkImageLayout := 5
def VK_IMAGE_LAYOUT_TRANSFER_SRC_OPTIMAL : VkImageLayout := 6
def VK_IMAGE_LAYOUT_TRANSFER_DST_OPTIMAL : VkImageLayout := 7
def VK_IMAGE_LAYOUT_PREINITIALIZED : VkImageLayout := 8
def VK_IMAGE_LAYOUT_PRESENT_SRC_KHR : VkImageLayout := 1000001002

def VK_ACCESS_SHADER_READ_BIT : VkAccessFlags := 0x20
def VK_ACCESS_SHADER_WRITE_BIT : VkAccessFlags := 0x40
def VK_ACCESS_COLOR_ATTACHMENT_WRITE_BIT : VkAccessFlags := 0x100
def VK_ACCESS_DEPTH_STENCIL_ATTACHMENT_WRITE_BIT : VkAccessFlags := 0x400
def VK_ACCESS_TRANSFER_READ_BIT : VkAccessFlags := 0x800
def VK_ACCESS_TRANSFER_WRITE_BIT : VkAccessFlags := 0x1000
def VK_ACCESS_HOST_WRITE_BIT : VkAccessFlags := 0x4000

def VK_PIPELINE_STAGE_TOP_OF_PIPE_BIT : VkPipelineStageFlags := 0x1
def VK_PIPELINE_STAGE_COLOR_ATTACHMENT_OUTPUT_BIT : VkPipelineStageFlags := 0x400
def VK_PIPELINE_STAGE_COMPUTE_SHADER_BIT : VkPipelineStageFlags := 0x800
def VK_PIPELINE_STAGE_TRANSFER_BIT : VkPipelineStageFlags := 0x1000
def VK_PIPELINE_STAGE_BOTTOM_OF_PIPE_BIT : VkPipelineStageFlags := 0x2000
def VK_PIPELINE_STAGE_ALL_COMMANDS_BIT : VkPipelineStageFlags := 0x10000

def VK_MEMORY_PROPERTY_DEVICE_LOCAL_BIT : VkMemoryPropertyFlags := 0x1
def VK_MEMORY_PROPERTY_HOST_VISIBLE_BIT : VkMemoryPropertyFlags := 0x2
def VK_MEMORY_PROPERTY_HOST_COHERENT_BIT : VkMemoryPropertyFlags := 0x4

def VK_BUFFER_USAGE_TRANSFER_SRC_BIT : VkBufferUsageFlags := 0x1
def VK_BUFFER_USAGE_TRANSFER_DST_BIT : VkBufferUsageFlags := 0x2

def VK_FORMAT_UNDEFINED : VkFormat := 0
def VK_SAMPLE_COUNT_1_BIT : Nat := 1
def VK_ATTACHMENT_LOAD_OP_LOAD : Nat := 0
def VK_ATTACHMENT_LOAD_OP_CLEAR : Nat := 1
def VK_ATTACHMENT_LOAD_OP_DONT_CARE : Nat := 2
def VK_ATTACHMENT_STORE_OP_STORE : Nat := 0
def VK_ATTACHMENT_STORE_OP_DONT_CARE : Nat := 1
def VK_PIPELINE_BIND_POINT_GRAPHICS : Nat := 0
def VK_PIPELINE_BIND_POINT_COMPUTE : Nat := 1
def VK_SUBPASS_EXTERNAL : Nat := 0xFFFFFFFF
def VK_SHARING_MODE_EXCLUSIVE : Nat := 0
def VK_WHOLE_SIZE : VkDeviceSize := 0xFFFFFFFFFFFFFFFF

/-- Value of `static_cast<uint32_t>(x)` for a non-negative `x`. -/
def to_uint32 (x : Nat) : Nat := x % 2 ^ 32

/-! ## Image layout transitions (`Utils.cpp`, lines 20-108 and 131-235) -/

/-- The fields of `VkImageMemoryBarrier` that `transition_image_layout` writes. -/
structure VkImageMemoryBarrier where
  srcAccessMask : VkAccessFlags
  dstAccessMask : VkAccessFlags
  oldLayout : VkImageLayout
  newLayout : VkImageLayout
  image : Nat
  subresourceRange : Nat
  deriving DecidableEq, Repr

/-- The one command `transition_image_layout` records:
`vkCmdPipelineBarrier(cmd, srcStage, dstStage, 0, 0, nullptr, 0, nullptr, 1, &barrier)`. -/
structure ImageBarrierCmd where
  srcStageMask : VkPipelineStageFlags
  dstStageMask : VkPipelineStageFlags
  barrier : VkImageMemoryBarrier
  deriving DecidableEq, Repr

/-- Lines 28-31 of `Utils.cpp` (and 137-140): the four assignments made to the barrier object
`b0` that `vk::image_memory_barrier()` returned. -/
def init_barrier (b0 : VkImageMemoryBarrier) (image : Nat) (old_layout new_layout : VkImageLayout)
    (subresource_range : Nat) : VkImageMemoryBarrier :=
  { b0 with oldLayout := old_layout, newLayout := new_layout, image := image,
            subresourceRange := subresource_range }

/-- The `switch (old_layout)` of the explicit-stage overload, lines 35-70. The `default`
branch leaves the barrier untouched. -/
def old_layout_switch (b : VkImageMemoryBarrier) (old_layout : VkImageLayout) :
    VkImageMemoryBarrier :=
  if old_layout = VK_IMAGE_LAYOUT_UNDEFINED then
    { b with srcAccessMask := 0 }
  else if old_layout = VK_IMAGE_LAYOUT_PREINITIALIZED then
    { b with srcAccessMask := VK_ACCESS_HOST_WRITE_BIT }
  else if old_layout = VK_IMAGE_LAYOUT_COLOR_ATTACHMENT_OPTIMAL then
    { b with srcAccessMask := VK_ACCESS_COLOR_ATTACHMENT_WRITE_BIT }
  else if old_layout = VK_IMAGE_LAYOUT_DEPTH_STENCIL_ATTACHMENT_OPTIMAL then
    { b with srcAccessMask := VK_ACCESS_DEPTH_STENCIL_ATTACHMENT_WRITE_BIT }
  else if old_layout = VK_IMAGE_LAYOUT_TRANSFER_SRC_OPTIMAL then
    { b with srcAccessMask := VK_ACCESS_TRANSFER_READ_BIT }
  else if old_layout = VK_IMAGE_LAYOUT_TRANSFER_DST_OPTIMAL then
    { b with srcAccessMask := VK_ACCESS_TRANSFER_WRITE_BIT }
  else if old_layout = VK_IMAGE_LAYOUT_SHADER_READ_ONLY_OPTIMAL then
    { b with srcAccessMask := VK_ACCESS_SHADER_READ_BIT }
  else
    b

/-- The `switch (new_layout)` of the explicit-stage overload, lines 74-103. The
depth-stencil case ORs into the mask (`|=`); the `default` branch leaves the barrier
untouched. -/
def new_layout_switch (b : VkImageMemoryBarrier) (new_layout : VkImageLayout) :
    VkImageMemoryBarrier :=
  if new_layout = VK_IMAGE_LAYOUT_TRANSFER_DST_OPTIMAL then
    { b with dstAccessMask := VK_ACCESS_TRANSFER_WRITE_BIT }
  else if new_layout = VK_IMAGE_LAYOUT_TRANSFER_SRC_OPTIMAL then
    { b with dstAccessMask := VK_ACCESS_TRANSFER_READ_BIT }
  else if new_layout = VK_IMAGE_LAYOUT_COLOR_ATTACHMENT_OPTIMAL then
    { b with dstAccessMask := VK_ACCESS_COLOR_ATTACHMENT_WRITE_BIT }
  else if new_layout = VK_IMAGE_LAYOUT_DEPTH_STENCIL_ATTACHMENT_OPTIMAL then
    { b with dstAccessMask := b.dstAccessMask ||| VK_ACCESS_DEPTH_STENCIL_ATTACHMENT_WRITE_BIT }
  else if new_layout = VK_IMAGE_LAYOUT_SHADER_READ_ONLY_OPTIMAL then
    let b1 := if b.srcAccessMask = 0 then
        { b with srcAccessMask := VK_ACCESS_HOST_WRITE_BIT ||| VK_ACCESS_TRANSFER_WRITE_BIT }
      else b
    { b1 with dstAccessMask := VK_ACCESS_SHADER_READ_BIT }
  else
    b

/-- The explicit-stage overload `transition_image_layout(cmd, image, old_layout, new_layout,
source_stage, destination_stage, subresource_range)`, lines 20-108. `b0` is the barrier
object returned by `vk::image_memory_barrier()`, a helper declared outside `src/`. The
result is the pipeline barrier recorded at lines 106-107. -/
def transition_image_layout_stages (b0 : VkImageMemoryBarrier) (image : Nat)
    (old_layout new_layout : VkImageLayout) (source_stage destination_stage : VkPipelineStageFlags)
    (subresource_range : Nat) : ImageBarrierCmd :=
  let b := init_barrier b0 image old_layout new_layout subresource_range
  let b := old_layout_switch b old_layout
  let b := new_layout_switch b new_layout
  { srcStageMask := source_stage, dstStageMask := destination_stage, barrier := b }

/-- The `switch (old_layout)` of the stage-inferring overload, lines 148-192: it sets
the source access mask and `source_stage` together. -/
def old_layout_switch_infer (b : VkImageMemoryBarrier) (old_layout : VkImageLayout) :
    VkImageMemoryBarrier × VkPipelineStageFlags :=
  if old_layout = VK_IMAGE_LAYOUT_UNDEFINED then
    ({ b with srcAccessMask := 0 }, VK_PIPELINE_STAGE_TOP_OF_PIPE_BIT)
  else if old_layout = VK_IMAGE_LAYOUT_PREINITIALIZED then
    ({ b with srcAccessMask := VK_ACCESS_HOST_WRITE_BIT }, VK_PIPELINE_STAGE_ALL_COMMANDS_BIT)
  else if old_layout = VK_IMAGE_LAYOUT_COLOR_ATTACHMENT_OPTIMAL then
    ({ b with srcAccessMask := VK_ACCESS_COLOR_ATTACHMENT_WRITE_BIT },
      VK_PIPELINE_STAGE_COLOR_ATTACHMENT_OUTPUT_BIT)
  else if old_layout = VK_IMAGE_LAYOUT_DEPTH_STENCIL_ATTACHMENT_OPTIMAL then
    ({ b with srcAccessMask := VK_ACCESS_DEPTH_STENCIL_ATTACHMENT_WRITE_BIT },
      VK_PIPELINE_STAGE_ALL_COMMANDS_BIT)
  else if old_layout = VK_IMAGE_LAYOUT_TRANSFER_SRC_OPTIMAL then
    ({ b with srcAccessMask := VK_ACCESS_TRANSFER_READ_BIT }, VK_PIPELINE_STAGE_ALL_COMMANDS_BIT)
  else if old_layout = VK_IMAGE_LAYOUT_TRANSFER_DST_OPTIMAL then
    ({ b with srcAccessMask := VK_ACCESS_TRANSFER_WRITE_BIT }, VK_PIPELINE_STAGE_TRANSFER_BIT)
  else if old_layout = VK_IMAGE_LAYOUT_SHADER_READ_ONLY_OPTIMAL then
    ({ b with srcAccessMask := VK_ACCESS_SHADER_READ_BIT }, VK_PIPELINE_STAGE_ALL_COMMANDS_BIT)
  else
    ({ b with srcAccessMask := 0 }, VK_PIPELINE_STAGE_BOTTOM_OF_PIPE_BIT)

/-- The `switch (new_layout)` of the stage-inferring overload, lines 196-230: it sets
the destination access mask and `destination_stage` together. Line 199 assigns the access
flag `VK_ACCESS_TRANSFER_WRITE_BIT` to the stage variable. -/
def new_layout_switch_infer (b : VkImageMemoryBarrier) (new_layout : VkImageLayout) :
    VkImageMemoryBarrier × VkPipelineStageFlags :=
  if new_layout = VK_IMAGE_LAYOUT_TRANSFER_DST_OPTIMAL then
    ({ b with dstAccessMask := VK_ACCESS_TRANSFER_WRITE_BIT }, VK_ACCESS_TRANSFER_WRITE_BIT)
  else if new_layout = VK_IMAGE_LAYOUT_TRANSFER_SRC_OPTIMAL then
    ({ b with dstAccessMask := VK_ACCESS_TRANSFER_READ_BIT }, VK_PIPELINE_STAGE_ALL_COMMANDS_BIT)
  else if new_layout = VK_IMAGE_LAYOUT_COLOR_ATTACHMENT_OPTIMAL then
    ({ b with dstAccessMask := VK_ACCESS_COLOR_ATTACHMENT_WRITE_BIT },
      VK_PIPELINE_STAGE_COLOR_ATTACHMENT_OUTPUT_BIT)
  else if new_layout = VK_IMAGE_LAYOUT_DEPTH_STENCIL_ATTACHMENT_OPTIMAL then
    ({ b with dstAccessMask :=
        b.dstAccessMask ||| VK_ACCESS_DEPTH_STENCIL_ATTACHMENT_WRITE_BIT },
      VK_PIPELINE_STAGE_ALL_COMMANDS_BIT)
  else if new_layout = VK_IMAGE_LAYOUT_SHADER_READ_ONLY_OPTIMAL then
    let b1 := if b.srcAccessMask = 0 then
        { b with srcAccessMask := VK_ACCESS_HOST_WRITE_BIT ||| VK_ACCESS_TRANSFER_WRITE_BIT }
      else b
    ({ b1 with dstAccessMask := VK_ACCESS_SHADER_READ_BIT }, VK_PIPELINE_STAGE_ALL_COMMANDS_BIT)
  else
    ({ b with dstAccessMask := 0 }, VK_PIPELINE_STAGE_BOTTOM_OF_PIPE_BIT)

/-- The stage-inferring overload `transition_image_layout(cmd, image, old_layout,
new_layout, subresource_range)`, lines 131-235. `b0` is the barrier object returned by
`vk::image_memory_barrier()`. `source_stage` and `destination_stage` start at 0 (lines
146-147) and every branch of the two switches overwrites them. -/
def transition_image_layout (b0 : VkImageMemoryBarrier) (image : Nat)
    (old_layout new_layout : VkImageLayout) (subresource_range : Nat) : ImageBarrierCmd :=
  let b := init_barrier b0 image old_layout new_layout subresource_range
  let (b, source_stage) := old_layout_switch_infer b old_layout
  let (b, destination_stage) := new_layout_switch_infer b new_layout
  { srcStageMask := source_stage, dstStageMask := destination_stage, barrier := b }

/-- The states the `switch (old_layout)` statements have a `case` for. -/
def handled_old_layouts : List VkImageLayout :=
  [VK_IMAGE_LAYOUT_UNDEFINED, VK_IMAGE_LAYOUT_PREINITIALIZED,
   VK_IMAGE_LAYOUT_COLOR_ATTACHMENT_OPTIMAL, VK_IMAGE_LAYOUT_DEPTH_STENCIL_ATTACHMENT_OPTIMAL,
   VK_IMAGE_LAYOUT_TRANSFER_SRC_OPTIMAL, VK_IMAGE_LAYOUT_TRANSFER_DST_OPTIMAL,
   VK_IMAGE_LAYOUT_SHADER_READ_ONLY_OPTIMAL]

/-- The states the `switch (new_layout)` statements have a `case` for. -/
def handled_new_layouts : List VkImageLayout :=
  [VK_IMAGE_LAYOUT_TRANSFER_DST_OPTIMAL, VK_IMAGE_LAYOUT_TRANSFER_SRC_OPTIMAL,
   VK_IMAGE_LAYOUT_COLOR_ATTACHMENT_OPTIMAL, VK_IMAGE_LAYOUT_DEPTH_STENCIL_ATTACHMENT_OPTIMAL,
   VK_IMAGE_LAYOUT_SHADER_READ_ONLY_OPTIMAL]

/-! ## Fatal errors -/

/-- The ways this layer aborts: a failed `LUMEN_ASSERT`, a Vulkan call whose result
`vk::check` rejects, or a method that dereferences the stored context of a `Buffer` that
has none. -/
inductive Fatal where
  | assertion_failed
  | api_rejected
  | null_context
  deriving DecidableEq, Repr

/-- Modelled from the spec: the macro `LUMEN_ASSERT(cond, msg)` is declared in `LumenPCH.h`,
outside `src/`. The spec (sections 4.1 and 7) calls it a fatal assertion: it aborts when
its condition is false and does nothing when the condition is true. -/
def LUMEN_ASSERT (cond : Bool) : Except Fatal Unit :=
  if cond then .ok () else .error Fatal.assertion_failed

/-- Modelled from the spec: `vk::check(result, msg)` is declared outside `src/`. The spec
(sections 4.1, 4.3 and 7) makes a rejected native call fatal. `none` stands for a result
other than `VK_SUCCESS`, `some h` for success with the created handle `h`. -/
def vk_check {α : Type} (result : Option α) : Except Fatal α :=
  match result with
  | some h => .ok h
  | none => .error Fatal.api_rejected

/-! ## Memory type selection (`Utils.cpp`, lines 6-18) -/

/-- The table `vkGetPhysicalDeviceMemoryProperties` fills in: `memoryTypeCount` and the
`propertyFlags` of `memoryTypes[i]` (index `i` of the list; 0 past its end). -/
structure VkPhysicalDeviceMemoryProperties where
  memoryTypeCount : Nat
  memoryTypes : List VkMemoryPropertyFlags
  deriving DecidableEq, Repr

/-- The test of lines 11-12 at index `i`. Indices are below `VK_MAX_MEMORY_TYPES = 32`,
where `1 << i` is the single bit `i`. -/
def memory_type_matches (mem_props : VkPhysicalDeviceMemoryProperties)
    (type_filter : Nat) (props : VkMemoryPropertyFlags) (i : Nat) : Bool :=
  (type_filter &&& (1 <<< i)) != 0 && (mem_props.memoryTypes.getD i 0 &&& props) == props

/-- The `for` loop of lines 10-15, started at index `i` with `remaining` iterations left
(`remaining = memoryTypeCount - i`): `some i` is `return i`, `none` is leaving the loop. -/
def find_memory_type_loop (mem_props : VkPhysicalDeviceMemoryProperties)
    (type_filter : Nat) (props : VkMemoryPropertyFlags) : Nat → Nat → Option Nat
  | 0, _ => none
  | remaining + 1, i =>
    if memory_type_matches mem_props type_filter props i then some i
    else find_memory_type_loop mem_props type_filter props remaining (i + 1)

/-- The function `find_memory_type`, lines 6-18. After the loop the source asserts the
constant `true` (line 16) and returns `static_cast<uint32_t>(-1)` (line 17). -/
def find_memory_type (mem_props : VkPhysicalDeviceMemoryProperties)
    (type_filter : Nat) (props : VkMemoryPropertyFlags) : Except Fatal Nat :=
  match find_memory_type_loop mem_props type_filter props mem_props.memoryTypeCount 0 with
  | some i => .ok i
  | none => do
    LUMEN_ASSERT true
    .ok 0xFFFFFFFF

/-! ## Render pass construction (`Utils.cpp`, lines 279-369) -/

structure VkAttachmentDescription where
  format : VkFormat
  samples : Nat
  loadOp : Nat
  storeOp : Nat
  stencilLoadOp : Nat
  stencilStoreOp : Nat
  initialLayout : VkImageLayout
  finalLayout : VkImageLayout
  deriving DecidableEq, Repr

structure VkAttachmentReference where
  attachment : Nat
  layout : VkImageLayout
  deriving DecidableEq, Repr

/-- A subpass description. `pColorAttachments` is the array the pointer refers to,
`pDepthStencilAttachment` is `none` for `VK_NULL_HANDLE`. -/
structure VkSubpassDescription where
  pipelineBindPoint : Nat
  colorAttachmentCount : Nat
  pColorAttachments : List VkAttachmentReference
  pDepthStencilAttachment : Option VkAttachmentReference
  deriving DecidableEq, Repr

structure VkSubpassDependency where
  srcSubpass : Nat
  dstSubpass : Nat
  srcStageMask : VkPipelineStageFlags
  dstStageMask : VkPipelineStageFlags
  srcAccessMask : VkAccessFlags
  dstAccessMask : VkAccessFlags
  deriving DecidableEq, Repr

structure VkRenderPassCreateInfo where
  attachmentCount : Nat
  pAttachments : List VkAttachmentDescription
  subpassCount : Nat
  pSubpasses : List VkSubpassDescription
  dependencyCount : Nat
  pDependencies : List VkSubpassDependency
  deriving DecidableEq, Repr

/-- One iteration of the loop over `color_attachment_formats`, lines 291-311, on the pair
`(all_attachments, color_attachment_refs)`. -/
def color_attachment_step (clear_color : Bool) (initial_layout final_layout : VkImageLayout)
    (acc : List VkAttachmentDescription × List VkAttachmentReference) (format : VkFormat) :
    List VkAttachmentDescription × List VkAttachmentReference :=
  let color_attachment : VkAttachmentDescription :=
    { format := format
      samples := VK_SAMPLE_COUNT_1_BIT
      loadOp :=
        if clear_color then VK_ATTACHMENT_LOAD_OP_CLEAR
        else if initial_layout = VK_IMAGE_LAYOUT_UNDEFINED then VK_ATTACHMENT_LOAD_OP_DONT_CARE
        else VK_ATTACHMENT_LOAD_OP_LOAD
      storeOp := VK_ATTACHMENT_STORE_OP_STORE
      stencilLoadOp := VK_ATTACHMENT_LOAD_OP_DONT_CARE
      stencilStoreOp := VK_ATTACHMENT_STORE_OP_DONT_CARE
      initialLayout := initial_layout
      finalLayout := final_layout }
  let color_attachment_ref : VkAttachmentReference :=
    { attachment := to_uint32 acc.1.length
      layout := VK_IMAGE_LAYOUT_COLOR_ATTACHMENT_OPTIMAL }
  (acc.1 ++ [color_attachment], acc.2 ++ [color_attachment_ref])

/-- Lines 314-335: the depth attachment reference (value-initialised, then filled in when
`has_depth`) and the attachment list after the optional `push_back`. -/
def depth_attachment_step (depth_attachment_format : VkFormat) (clear_depth : Bool)
    (all_attachments : List VkAttachmentDescription) :
    List VkAttachmentDescription × VkAttachmentReference :=
  if depth_attachment_format ≠ VK_FORMAT_UNDEFINED then
    let depth_attachment : VkAttachmentDescription :=
      { format := depth_attachment_format
        samples := VK_SAMPLE_COUNT_1_BIT
        loadOp := if clear_depth then VK_ATTACHMENT_LOAD_OP_CLEAR else VK_ATTACHMENT_LOAD_OP_LOAD
        storeOp := VK_ATTACHMENT_STORE_OP_STORE
        stencilLoadOp := VK_ATTACHMENT_LOAD_OP_DONT_CARE
        stencilStoreOp := VK_ATTACHMENT_STORE_OP_DONT_CARE
        initialLayout := VK_IMAGE_LAYOUT_UNDEFINED
        finalLayout := VK_IMAGE_LAYOUT_DEPTH_STENCIL_ATTACHMENT_OPTIMAL }
    (all_attachments ++ [depth_attachment],
      { attachment := to_uint32 all_attachments.length
        layout := VK_IMAGE_LAYOUT_DEPTH_STENCIL_ATTACHMENT_OPTIMAL })
  else
    (all_attachments, { attachment := 0, layout := 0 })

/-- One iteration `i` of the subpass loop, lines 339-356, on the pair
`(subpasses, subpass_dependencies)`. -/
def subpass_step (color_attachment_refs : List VkAttachmentReference) (has_depth : Bool)
    (depth_attachment_ref : VkAttachmentReference)
    (acc : List VkSubpassDescription × List VkSubpassDependency) (i : Nat) :
    List VkSubpassDescription × List VkSubpassDependency :=
  let subpass : VkSubpassDescription :=
    { pipelineBindPoint := VK_PIPELINE_BIND_POINT_GRAPHICS
      colorAttachmentCount := to_uint32 color_attachment_refs.length
      pColorAttachments := color_attachment_refs
      pDepthStencilAttachment := if has_depth then some depth_attachment_ref else none }
  let dependency : VkSubpassDependency :=
    { srcSubpass := if i = 0 then VK_SUBPASS_EXTERNAL else i - 1
      dstSubpass := i
      srcStageMask := VK_PIPELINE_STAGE_COLOR_ATTACHMENT_OUTPUT_BIT
      dstStageMask := VK_PIPELINE_STAGE_COLOR_ATTACHMENT_OUTPUT_BIT
      srcAccessMask := 0
      dstAccessMask := VK_ACCESS_COLOR_ATTACHMENT_WRITE_BIT }
  (acc.1 ++ [subpass], acc.2 ++ [dependency])

/-- Lines 285-365 of `create_render_pass`: the `VkRenderPassCreateInfo` handed to
`vkCreateRenderPass`. `subpass_count` is a `uint32_t`; the loop of line 338 runs
`i = 0, 1, ..., subpass_count - 1`. -/
def render_pass_create_info (color_attachment_formats : List VkFormat)
    (depth_attachment_format : VkFormat) (subpass_count : Nat) (clear_color clear_depth : Bool)
    (initial_layout final_layout : VkImageLayout) : VkRenderPassCreateInfo :=
  let has_depth : Bool := decide (depth_attachment_format ≠ VK_FORMAT_UNDEFINED)
  let (all_attachments, color_attachment_refs) :=
    color_attachment_formats.foldl
      (color_attachment_step clear_color initial_layout final_layout) ([], [])
  let (all_attachments, depth_attachment_ref) :=
    depth_attachment_step depth_attachment_format clear_depth all_attachments
  let (subpasses, subpass_dependencies) :=
    (List.range subpass_count).foldl
      (subpass_step color_attachment_refs has_depth depth_attachment_ref) ([], [])
  { attachmentCount := to_uint32 all_attachments.length
    pAttachments := all_attachments
    subpassCount := to_uint32 subpasses.length
    pSubpasses := subpasses
    dependencyCount := to_uint32 subpass_dependencies.length
    pDependencies := subpass_dependencies }

/-- The function `create_render_pass`, lines 279-369. `vkCreateRenderPass` is the device
call: it answers a create-info with a render pass handle or rejects it. -/
def create_render_pass (vkCreateRenderPass : VkRenderPassCreateInfo → Option Nat)
    (color_attachment_formats : List VkFormat) (depth_attachment_format : VkFormat)
    (subpass_count : Nat) (clear_color clear_depth : Bool)
    (initial_layout final_layout : VkImageLayout) : Except Fatal Nat :=
  vk_check (vkCreateRenderPass
    (render_pass_create_info color_attachment_formats depth_attachment_format subpass_count
      clear_color clear_depth initial_layout final_layout))

/-! ## Single-precision arithmetic used by the dispatch helpers

`dispatch_compute` and `reduce` compute workgroup counts as `ceil(int / float)`. The
operands are non-negative 32-bit integers, so the IEEE-754 binary32 values involved are
modelled exactly with natural numbers: conversion of an integer rounds it to a 24-bit
significand (round to nearest, ties to even), division rounds the exact quotient the same
way, and `ceil` is exact. -/

/-- Auxiliary for `ilog2`: halve `n` until it is below 2, at most `fuel` times. -/
def ilog2_fuel : Nat → Nat → Nat
  | 0, _ => 0
  | fuel + 1, n => if n < 2 then 0 else ilog2_fuel fuel (n / 2) + 1

/-- Position of the leading bit of `n`: `2 ^ ilog2 n ≤ n < 2 ^ (ilog2 n + 1)` for `n > 0`. -/
def ilog2 (n : Nat) : Nat := ilog2_fuel n n

/-- The integer nearest to `num / den`, ties going to the even neighbour. -/
def rne (num den : Nat) : Nat :=
  let q := num / den
  let r := num % den
  if 2 * r < den then q
  else if den < 2 * r then q + 1
  else if q % 2 = 0 then q else q + 1

/-- Conversion `int -> float` of a non-negative `int`: the value keeps its 24 leading bits,
the `ilog2 n - 23` bits below them are rounded away. The result is again an integer. -/
def f32_of_int (n : Nat) : Nat :=
  let s := ilog2 n - 23
  rne n (2 ^ s) * 2 ^ s

/-- The integer `ceil(a / b)` where `a / b` is the binary32 quotient of the binary32 values
`a` and `b` (integers, `b > 0`). With `la = ilog2 a` and `lb = ilog2 b` the exact quotient
is `x * 2 ^ (la - lb)` for `x = (a * 2 ^ lb) / (b * 2 ^ la)` in `(1/2, 2)`; its 24-bit
significand is `m = rne (x * 2 ^ t)` with `t = 23` when `x ≥ 1` and `t = 24` otherwise, and
the rounded quotient is `m * 2 ^ la / 2 ^ (lb + t)`. -/
def f32_div_ceil (a b : Nat) : Nat :=
  if a = 0 then 0 else
  let la := ilog2 a
  let lb := ilog2 b
  let t := if b * 2 ^ la ≤ a * 2 ^ lb then 23 else 24
  let m := rne (a * 2 ^ lb * 2 ^ t) (b * 2 ^ la)
  (m * 2 ^ la + 2 ^ (lb + t) - 1) / 2 ^ (lb + t)

/-! ## Buffers and recorded commands -/

structure VkDescriptorBufferInfo where
  buffer : Nat
  offset : VkDeviceSize
  range : VkDeviceSize
  deriving DecidableEq, Repr

structure VkMemoryRequirements where
  size : VkDeviceSize
  alignment : VkDeviceSize
  memoryTypeBits : Nat
  deriving DecidableEq, Repr

/-- The create-info `vk::buffer_create_info(usage, size, sharing_mode)` builds (the helper
is declared outside `src/`; the model keeps its three arguments). -/
structure VkBufferCreateInfo where
  usage : VkBufferUsageFlags
  size : VkDeviceSize
  sharingMode : Nat
  deriving DecidableEq, Repr

structure VkMemoryAllocateInfo where
  allocationSize : VkDeviceSize
  memoryTypeIndex : Nat
  deriving DecidableEq, Repr

/-- What `Buffer::create` observes of the device behind `VulkanContext* ctx`: the memory
type table of the physical device and the answers of the Vulkan calls it makes (`none` is
a result other than `VK_SUCCESS`). -/
structure VulkanContext where
  mem_props : VkPhysicalDeviceMemoryProperties
  vkCreateBuffer : VkBufferCreateInfo → Option Nat
  vkGetBufferMemoryRequirements : Nat → VkMemoryRequirements
  vkAllocateMemory : VkMemoryAllocateInfo → Option Nat
  vkFlushMappedMemoryRanges : Nat → VkDeviceSize → VkDeviceSize → Option Unit

/-- The data members of `Buffer` that `Buffer.cpp` and `Utils.cpp` read or write.
`ctx` is the stored context pointer and `data` the mapped pointer (`none` for null). -/
structure Buffer where
  ctx : Option VulkanContext
  handle : Nat
  buffer_memory : Nat
  size : VkDeviceSize
  alignment : VkDeviceSize
  usage_flags : VkBufferUsageFlags
  mem_property_flags : VkMemoryPropertyFlags
  data : Option Nat
  descriptor : VkDescriptorBufferInfo

structure Pipeline where
  handle : Nat
  deriving DecidableEq, Repr

structure VkBufferMemoryBarrier where
  buffer : Nat
  srcAccessMask : VkAccessFlags
  dstAccessMask : VkAccessFlags
  deriving DecidableEq, Repr

structure VkBufferCopy where
  srcOffset : VkDeviceSize
  dstOffset : VkDeviceSize
  size : VkDeviceSize
  deriving DecidableEq, Repr

/-- Modelled from the spec: `buffer_barrier(handle, src_access, dst_access)` is declared
outside `src/`. Section 4.4 of the spec speaks of a barrier covering a buffer between two
kinds of access; the model keeps the three arguments. -/
def buffer_barrier (handle : Nat) (src_access dst_access : VkAccessFlags) :
    VkBufferMemoryBarrier :=
  { buffer := handle, srcAccessMask := src_access, dstAccessMask := dst_access }

/-- The commands recorded into a command buffer by `Utils.cpp` and `Buffer.cpp`. -/
inductive Cmd where
  /-- The call `vkCmdFillBuffer(cmd, dstBuffer, dstOffset, size, data)`. -/
  | fillBuffer (dstBuffer : Nat) (dstOffset size : VkDeviceSize) (data : Nat)
  /-- The call `vkCmdPipelineBarrier(cmd, src, dst, 0, 0, 0, n, bufferBarriers, 0, 0)`. -/
  | pipelineBarrier (srcStageMask dstStageMask : VkPipelineStageFlags)
      (bufferBarriers : List VkBufferMemoryBarrier)
  /-- The call `vkCmdBindPipeline(cmd, bindPoint, pipeline)`. -/
  | bindPipeline (bindPoint : Nat) (pipeline : Nat)
  /-- The call `vkCmdDispatch(cmd, x, y, z)`. -/
  | dispatch (x y z : Nat)
  /-- The call `vkCmdCopyBuffer(cmd, src, dst, n, regions)`. -/
  | copyBuffer (srcBuffer dstBuffer : Nat) (regions : List VkBufferCopy)
  deriving DecidableEq, Repr

/-! ## Compute dispatch and reduction (`Utils.cpp`, lines 387-424) -/

/-- The function `dispatch_compute`, lines 387-393, for non-negative `width`, `height` and
positive `wg_x`, `wg_y` (all `int`): the commands it records. -/
def dispatch_compute (pipeline : Pipeline) (wg_x wg_y width height : Nat) : List Cmd :=
  let num_wg_x := f32_div_ceil (f32_of_int width) (f32_of_int wg_x)
  let num_wg_y := f32_div_ceil (f32_of_int height) (f32_of_int wg_y)
  [Cmd.bindPipeline VK_PIPELINE_BIND_POINT_COMPUTE pipeline.handle,
   Cmd.dispatch num_wg_x num_wg_y 1]

/-- The barrier `res_barrier` of lines 402-403. -/
def res_barrier (residual_buffer : Buffer) : VkBufferMemoryBarrier :=
  buffer_barrier residual_buffer.handle VK_ACCESS_SHADER_WRITE_BIT
    (VK_ACCESS_SHADER_WRITE_BIT ||| VK_ACCESS_SHADER_READ_BIT)

/-- The barrier `counter_barrier` of lines 411-412. -/
def counter_barrier (counter_buffer : Buffer) : VkBufferMemoryBarrier :=
  buffer_barrier counter_buffer.handle VK_ACCESS_SHADER_WRITE_BIT
    (VK_ACCESS_SHADER_WRITE_BIT ||| VK_ACCESS_SHADER_READ_BIT)

/-- The barrier command of lines 420-421: the two-element vector `barriers` of line 415. -/
def round_barrier (residual_buffer counter_buffer : Buffer) : Cmd :=
  Cmd.pipelineBarrier VK_PIPELINE_STAGE_COMPUTE_SHADER_BIT VK_PIPELINE_STAGE_COMPUTE_SHADER_BIT
    [res_barrier residual_buffer, counter_barrier counter_buffer]

/-- The value `(int)ceil(n / 1024.0f)` of lines 407 and 418 for a non-negative `int n`. -/
def ceil_div_1024f (n : Nat) : Nat := f32_div_ceil (f32_of_int n) 1024

/-- The commands of lines 397-414 of `reduce`, everything before the `while` loop. -/
def reduce_prologue (residual_buffer counter_buffer : Buffer) (op_pipeline : Pipeline)
    (dim : Nat) : List Cmd :=
  [Cmd.fillBuffer residual_buffer.handle 0 residual_buffer.size 0,
   Cmd.pipelineBarrier VK_PIPELINE_STAGE_TRANSFER_BIT VK_PIPELINE_STAGE_COMPUTE_SHADER_BIT
     [buffer_barrier residual_buffer.handle VK_ACCESS_TRANSFER_WRITE_BIT
        VK_ACCESS_SHADER_WRITE_BIT]]
  ++ dispatch_compute op_pipeline 1024 1 dim 1
  ++ [Cmd.pipelineBarrier VK_PIPELINE_STAGE_COMPUTE_SHADER_BIT
        VK_PIPELINE_STAGE_COMPUTE_SHADER_BIT [res_barrier residual_buffer],
      Cmd.fillBuffer counter_buffer.handle 0 counter_buffer.size 1,
      Cmd.pipelineBarrier VK_PIPELINE_STAGE_TRANSFER_BIT VK_PIPELINE_STAGE_COMPUTE_SHADER_BIT
        [buffer_barrier counter_buffer.handle VK_ACCESS_TRANSFER_WRITE_BIT
           (VK_ACCESS_SHADER_WRITE_BIT ||| VK_ACCESS_SHADER_READ_BIT)]]

/-- The `while (num_wgs != 1)` loop of lines 416-423 run with `fuel` iterations at most:
`some cmds` when the loop exits having recorded `cmds`, `none` when the fuel is used up
with the loop condition still true. -/
def reduce_loop (residual_buffer counter_buffer : Buffer) (reduce_pipeline : Pipeline)
    (dim : Nat) : Nat → Nat → Option (List Cmd)
  | 0, num_wgs => if num_wgs ≠ 1 then none else some []
  | fuel + 1, num_wgs =>
    if num_wgs ≠ 1 then
      let cmds := dispatch_compute reduce_pipeline 1024 1 dim 1
      let num_wgs := ceil_div_1024f num_wgs
      let cmds := if num_wgs > 1 then cmds ++ [round_barrier residual_buffer counter_buffer]
        else cmds
      (reduce_loop residual_buffer counter_buffer reduce_pipeline dim fuel num_wgs).map
        (fun rest => cmds ++ rest)
    else some []

/-- The function `reduce`, lines 395-424, for a non-negative `dim` and with the loop bounded
by `fuel`: the whole command sequence, or `none` when the loop is still running after
`fuel` iterations. -/
def reduce (residual_buffer counter_buffer : Buffer) (op_pipeline reduce_pipeline : Pipeline)
    (dim : Nat) (fuel : Nat) : Option (List Cmd) :=
  let prologue := reduce_prologue residual_buffer counter_buffer op_pipeline dim
  let num_wgs := ceil_div_1024f dim
  (reduce_loop residual_buffer counter_buffer reduce_pipeline dim fuel num_wgs).map
    (fun rounds => prologue ++ rounds)

/-! ## Buffer creation (`Buffer.cpp`, lines 5-118) -/

/-- The device-visible actions `Buffer::create` performs, in program order. -/
inductive HostOp where
  /-- A successful `vkCreateBuffer` with the handle it produced. -/
  | createBuffer (info : VkBufferCreateInfo) (handle : Nat)
  /-- A successful `vkAllocateMemory` with the memory it produced. -/
  | allocateMemory (info : VkMemoryAllocateInfo) (memory : Nat)
  /-- The call `map_memory()` on the buffer with this handle. -/
  | mapMemory (buffer : Nat)
  /-- The call `memcpy(this->data, data, size)`: the bytes written to the mapped buffer. -/
  | memcpy (buffer : Nat) (bytes : List Nat)
  /-- The call `unmap()` on the buffer with this handle. -/
  | unmapMemory (buffer : Nat)
  /-- A successful `vkFlushMappedMemoryRanges` on this memory with `(size, offset)`. -/
  | flush (memory : Nat) (size offset : VkDeviceSize)
  /-- The call `bind()` on the buffer with this handle. -/
  | bind (buffer : Nat)
  /-- The one-shot command buffer `copy_cmd`, recorded and submitted to the graphics queue. -/
  | submit (cmds : List Cmd)
  /-- The call `destroy()` on the buffer with this handle. -/
  | destroy (buffer : Nat)
  deriving DecidableEq, Repr

/-- Modelled from the spec: the default member initialisers of `Buffer` are in `Buffer.h`,
outside `src/`. A freshly declared `Buffer` (line 12) has no context, null handles, no
mapping and zero metadata. -/
def Buffer.fresh : Buffer :=
  { ctx := none, handle := 0, buffer_memory := 0, size := 0, alignment := 0,
    usage_flags := 0, mem_property_flags := 0, data := none,
    descriptor := { buffer := 0, offset := 0, range := 0 } }

/-- Lines 7-9 of `Buffer::create`: the stored context is set from the parameter only
when the object has none yet; a context stored earlier is kept. -/
def Buffer.adopt_context (self : Buffer) (ctx : VulkanContext) : Buffer :=
  match self.ctx with
  | none => { self with ctx := some ctx }
  | some _ => self

/-- The method `Buffer::flush(size, offset)`, lines 93-102. The device it flushes on is
the one of the stored context `this->ctx` (line 99), not of any context passed to
`create`. -/
def Buffer.flush (self : Buffer) (size offset : VkDeviceSize) : Except Fatal HostOp :=
  match self.ctx with
  | none => .error Fatal.null_context
  | some stored =>
    match vk_check (stored.vkFlushMappedMemoryRanges self.buffer_memory size offset) with
    | .ok _ => .ok (HostOp.flush self.buffer_memory size offset)
    | .error e => .error e

/-- The method `Buffer::prepare_descriptor(size, offset)`, lines 114-118. -/
def Buffer.prepare_descriptor (self : Buffer) (size offset : VkDeviceSize) : Buffer :=
  { self with descriptor := { offset := offset, buffer := self.handle, range := size } }

/-- Lines 77-85 of `Buffer::create`: the optional upload of the initial data. `map_memory`
and `unmap` are declared in `Buffer.h`; they are recorded as actions and, following the
invariant of section 3 of the spec, the mapped pointer is null again after `unmap`. The
call `flush()` of line 83 takes the default arguments of `Buffer.h`, the whole range, and
runs on the stored context of the object. -/
def Buffer.upload_initial_data (self : Buffer)
    (mem_property_flags : VkMemoryPropertyFlags) (size : VkDeviceSize)
    (data : Option (List Nat)) : List HostOp × Except Fatal Buffer :=
  match data with
  | none => ([], .ok self)
  | some bytes =>
    let ops := [HostOp.mapMemory self.handle, HostOp.memcpy self.handle (bytes.take size),
                HostOp.unmapMemory self.handle]
    let self := { self with data := none }
    if (mem_property_flags &&& VK_MEMORY_PROPERTY_HOST_COHERENT_BIT) = 0 then
      match self.flush VK_WHOLE_SIZE 0 with
      | .ok op => (ops ++ [op], .ok self)
      | .error e => (ops, .error e)
    else (ops, .ok self)

/-- The `else` branch of `Buffer::create`, lines 48-89, on the object `self`, preceded by
lines 7-9 (which a nested call runs again, to no effect once a context is stored). The
Vulkan calls of lines 54-68 go to the device of the parameter `ctx`. The assignments
`size = size` and `mem_property_flags = mem_property_flags` of lines 73 and 75 name the
parameters on both sides, so the members of the same names keep their values. The call `prepare_descriptor()` of line 88 takes the
default arguments of `Buffer.h`, which section 4.1 of the spec gives as the whole buffer. -/
def Buffer.create_direct (self : Buffer) (ctx : VulkanContext) (usage : VkBufferUsageFlags)
    (mem_property_flags : VkMemoryPropertyFlags) (sharing_mode : Nat) (size : VkDeviceSize)
    (data : Option (List Nat)) : List HostOp × Except Fatal Buffer :=
  let self := self.adopt_context ctx
  let buffer_CI : VkBufferCreateInfo := { usage := usage, size := size, sharingMode := sharing_mode }
  match vk_check (ctx.vkCreateBuffer buffer_CI) with
  | .error e => ([], .error e)
  | .ok handle =>
    let self := { self with handle := handle }
    let ops := [HostOp.createBuffer buffer_CI handle]
    let mem_reqs := ctx.vkGetBufferMemoryRequirements handle
    match find_memory_type ctx.mem_props mem_reqs.memoryTypeBits mem_property_flags with
    | .error e => (ops, .error e)
    | .ok memoryTypeIndex =>
      let mem_alloc_info : VkMemoryAllocateInfo :=
        { allocationSize := mem_reqs.size, memoryTypeIndex := memoryTypeIndex }
      match vk_check (ctx.vkAllocateMemory mem_alloc_info) with
      | .error e => (ops, .error e)
      | .ok memory =>
        let self := { self with buffer_memory := memory }
        let ops := ops ++ [HostOp.allocateMemory mem_alloc_info memory]
        let self := { self with alignment := mem_reqs.alignment, usage_flags := usage }
        match self.upload_initial_data mem_property_flags size data with
        | (ops1, .error e) => (ops ++ ops1, .error e)
        | (ops1, .ok self) =>
          let self := self.prepare_descriptor VK_WHOLE_SIZE 0
          (ops ++ ops1 ++ [HostOp.bind self.handle], .ok self)

/-- The method `Buffer::create`, lines 5-91. The two nested calls of the staging branch
(lines 17-32) omit `use_staging`, whose default in `Buffer.h` is `false`, so they run
`create_direct`. The result is the list of actions performed and either the updated
object or the fatal error that stopped the call. -/
def Buffer.create (self : Buffer) (ctx : VulkanContext) (usage : VkBufferUsageFlags)
    (mem_property_flags : VkMemoryPropertyFlags) (sharing_mode : Nat) (size : VkDeviceSize)
    (data : Option (List Nat)) (use_staging : Bool) : List HostOp × Except Fatal Buffer :=
  let self := self.adopt_context ctx
  if use_staging then
    let staging_buffer := Buffer.fresh
    match LUMEN_ASSERT ((mem_property_flags &&& VK_MEMORY_PROPERTY_DEVICE_LOCAL_BIT) != 0) with
    | .error e => ([], .error e)
    | .ok _ =>
      match staging_buffer.create_direct ctx VK_BUFFER_USAGE_TRANSFER_SRC_BIT
          (VK_MEMORY_PROPERTY_HOST_COHERENT_BIT ||| VK_MEMORY_PROPERTY_HOST_VISIBLE_BIT)
          VK_SHARING_MODE_EXCLUSIVE size data with
      | (ops1, .error e) => (ops1, .error e)
      | (ops1, .ok staging_buffer) =>
        match self.create_direct ctx (VK_BUFFER_USAGE_TRANSFER_DST_BIT ||| usage)
            mem_property_flags sharing_mode size none with
        | (ops2, .error e) => (ops1 ++ ops2, .error e)
        | (ops2, .ok self) =>
          let copy_region : VkBufferCopy := { srcOffset := 0, dstOffset := 0, size := size }
          let copy_cmd := [Cmd.copyBuffer staging_buffer.handle self.handle [copy_region]]
          (ops1 ++ ops2 ++ [HostOp.submit copy_cmd, HostOp.destroy staging_buffer.handle],
            .ok self)
  else
    self.create_direct ctx usage mem_property_flags sharing_mode size data

/-! ## Buffer contents under the recorded actions

The effect of the actions of `Buffer::create` on the bytes held by each buffer, as the
Vulkan calls define it: a buffer and its dedicated memory are one region of `size` bytes,
a host `memcpy` through the mapping writes at offset 0, a submitted `vkCmdCopyBuffer`
copies each region, and the submission has completed when `submit` returns (section 4.1 of
the spec: submit and block until completion). -/

/-- The bytes of every live buffer, by handle; `none` for a handle that is not live. -/
abbrev DeviceMemory := Nat → Option (List Nat)

/-- The region `mem` with `bytes` written at `offset`. -/
def write_at (mem : List Nat) (offset : Nat) (bytes : List Nat) : List Nat :=
  mem.take offset ++ bytes ++ mem.drop (offset + bytes.length)

/-- One region of a buffer copy: `region.size` bytes from `srcOffset` of the source to
`dstOffset` of the destination. -/
def copy_region (mem : DeviceMemory) (src dst : Nat) (region : VkBufferCopy) : DeviceMemory :=
  match mem src, mem dst with
  | some s, some d =>
    fun h => if h = dst then
        some (write_at d region.dstOffset ((s.drop region.srcOffset).take region.size))
      else mem h
  | _, _ => mem

/-- Modelled from the spec: effect of one submitted command on buffer contents (the
commands run on the device, outside `src/`). Only `vkCmdCopyBuffer`, the command
`Buffer::create` records, is interpreted: section 4.1 of the spec has it copy the full
range from staging to destination. The other commands leave the contents as they are in
this model. -/
def Cmd.exec (mem : DeviceMemory) : Cmd → DeviceMemory
  | Cmd.copyBuffer src dst regions => regions.foldl (fun m region => copy_region m src dst region) mem
  | _ => mem

/-- Modelled from the spec: effect of one action of `Buffer::create` on buffer contents.
The methods `map_memory`, `unmap`, `bind`, `destroy` and the `CommandBuffer` class are
declared outside `src/`; sections 3 and 4.1 of the spec give their effect: data copied
through the mapping lands in the buffer, a submission has completed when `submit`
returns, destruction releases the buffer. A new buffer holds `size` bytes (zero here;
nothing proved below depends on their value). -/
def HostOp.exec (mem : DeviceMemory) : HostOp → DeviceMemory
  | HostOp.createBuffer info handle =>
    fun h => if h = handle then some (List.replicate info.size 0) else mem h
  | HostOp.memcpy buffer bytes =>
    match mem buffer with
    | some old => fun h => if h = buffer then some (write_at old 0 bytes) else mem h
    | none => mem
  | HostOp.submit cmds => cmds.foldl Cmd.exec mem
  | HostOp.destroy buffer => fun h => if h = buffer then none else mem h
  | _ => mem

/-- Effect of a sequence of actions, in order. -/
def run_host_ops (ops : List HostOp) (mem : DeviceMemory) : DeviceMemory :=
  ops.foldl HostOp.exec mem

/-! ## Reference tables of the specification -/

/-- The source table of section 4.2 of the spec, read as a function of the old state:
Undefined has no prior access, Preinitialized a host write, ColorAttachmentOptimal a
color write, DepthStencilAttachmentOptimal a depth-stencil write, TransferSrc a transfer
read, TransferDst a transfer write, ShaderReadOnly a shader read; a state the table does
not list has the empty mask. -/
def canonical_src_access (old_state : VkImageLayout) : VkAccessFlags :=
  if old_state = VK_IMAGE_LAYOUT_UNDEFINED then 0
  else if old_state = VK_IMAGE_LAYOUT_PREINITIALIZED then VK_ACCESS_HOST_WRITE_BIT
  else if old_state = VK_IMAGE_LAYOUT_COLOR_ATTACHMENT_OPTIMAL then
    VK_ACCESS_COLOR_ATTACHMENT_WRITE_BIT
  else if old_state = VK_IMAGE_LAYOUT_DEPTH_STENCIL_ATTACHMENT_OPTIMAL then
    VK_ACCESS_DEPTH_STENCIL_ATTACHMENT_WRITE_BIT
  else if old_state = VK_IMAGE_LAYOUT_TRANSFER_SRC_OPTIMAL then VK_ACCESS_TRANSFER_READ_BIT
  else if old_state = VK_IMAGE_LAYOUT_TRANSFER_DST_OPTIMAL then VK_ACCESS_TRANSFER_WRITE_BIT
  else if old_state = VK_IMAGE_LAYOUT_SHADER_READ_ONLY_OPTIMAL then VK_ACCESS_SHADER_READ_BIT
  else 0

/-! # Theorems -/

/-! ## Image layout transitions -/

theorem not_mem_handled_old {s : VkImageLayout} (h : s ∉ handled_old_layouts) :
    s ≠ VK_IMAGE_LAYOUT_UNDEFINED ∧ s ≠ VK_IMAGE_LAYOUT_PREINITIALIZED ∧
    s ≠ VK_IMAGE_LAYOUT_COLOR_ATTACHMENT_OPTIMAL ∧
    s ≠ VK_IMAGE_LAYOUT_DEPTH_STENCIL_ATTACHMENT_OPTIMAL ∧
    s ≠ VK_IMAGE_LAYOUT_TRANSFER_SRC_OPTIMAL ∧ s ≠ VK_IMAGE_LAYOUT_TRANSFER_DST_OPTIMAL ∧
    s ≠ VK_IMAGE_LAYOUT_SHADER_READ_ONLY_OPTIMAL := by
  simpa [handled_old_layouts] using h

theorem not_mem_handled_new {s : VkImageLayout} (h : s ∉ handled_new_layouts) :
    s ≠ VK_IMAGE_LAYOUT_TRANSFER_DST_OPTIMAL ∧ s ≠ VK_IMAGE_LAYOUT_TRANSFER_SRC_OPTIMAL ∧
    s ≠ VK_IMAGE_LAYOUT_COLOR_ATTACHMENT_OPTIMAL ∧
    s ≠ VK_IMAGE_LAYOUT_DEPTH_STENCIL_ATTACHMENT_OPTIMAL ∧
    s ≠ VK_IMAGE_LAYOUT_SHADER_READ_ONLY_OPTIMAL := by
  simpa [handled_new_layouts] using h

/-- The `default` branch of the stage-inferring source switch. -/
theorem old_layout_switch_infer_default (b : VkImageMemoryBarrier) {s : VkImageLayout}
    (h : s ∉ handled_old_layouts) :
    old_layout_switch_infer b s =
      ({ b with srcAccessMask := 0 }, VK_PIPELINE_STAGE_BOTTOM_OF_PIPE_BIT) := by
  obtain ⟨h1, h2, h3, h4, h5, h6, h7⟩ := not_mem_handled_old h
  simp [old_layout_switch_infer, h1, h2, h3, h4, h5, h6, h7]

/-- The `default` branch of the stage-inferring target switch. -/
theorem new_layout_switch_infer_default (b : VkImageMemoryBarrier) {s : VkImageLayout}
    (h : s ∉ handled_new_layouts) :
    new_layout_switch_infer b s =
      ({ b with dstAccessMask := 0 }, VK_PIPELINE_STAGE_BOTTOM_OF_PIPE_BIT) := by
  obtain ⟨h1, h2, h3, h4, h5⟩ := not_mem_handled_new h
  simp [new_layout_switch_infer, h1, h2, h3, h4, h5]

/-- The `default` branch of the explicit-stage source switch. -/
theorem old_layout_switch_default (b : VkImageMemoryBarrier) {s : VkImageLayout}
    (h : s ∉ handled_old_layouts) : old_layout_switch b s = b := by
  obtain ⟨h1, h2, h3, h4, h5, h6, h7⟩ := not_mem_handled_old h
  simp [old_layout_switch, h1, h2, h3, h4, h5, h6, h7]

/-- C1 (as amended): in the stage-inferring `transition_image_layout`, when the old state
has no case in the source switch and the new state has no case in the target switch, the
barrier is issued with source stage bottom-of-pipe, destination stage bottom-of-pipe, and
both access masks empty. -/
theorem transition_unhandled_pair (b0 : VkImageMemoryBarrier) (image : Nat)
    (old_layout new_layout : VkImageLayout) (subresource_range : Nat)
    (hold : old_layout ∉ handled_old_layouts) (hnew : new_layout ∉ handled_new_layouts) :
    (transition_image_layout b0 image old_layout new_layout subresource_range).srcStageMask
        = VK_PIPELINE_STAGE_BOTTOM_OF_PIPE_BIT ∧
    (transition_image_layout b0 image old_layout new_layout subresource_range).dstStageMask
        = VK_PIPELINE_STAGE_BOTTOM_OF_PIPE_BIT ∧
    (transition_image_layout b0 image old_layout new_layout
        subresource_range).barrier.srcAccessMask = 0 ∧
    (transition_image_layout b0 image old_layout new_layout
        subresource_range).barrier.dstAccessMask = 0 := by
  simp [transition_image_layout, old_layout_switch_infer_default _ hold,
    new_layout_switch_infer_default _ hnew]

/-- Witness for C1 (as amended): old state General, new state PresentSrc. -/
theorem transition_unhandled_pair_witness :
    (transition_image_layout ⟨0, 0, 0, 0, 0, 0⟩ 7 VK_IMAGE_LAYOUT_GENERAL
        VK_IMAGE_LAYOUT_PRESENT_SRC_KHR 0).srcStageMask = VK_PIPELINE_STAGE_BOTTOM_OF_PIPE_BIT ∧
    (transition_image_layout ⟨0, 0, 0, 0, 0, 0⟩ 7 VK_IMAGE_LAYOUT_GENERAL
        VK_IMAGE_LAYOUT_PRESENT_SRC_KHR 0).dstStageMask = VK_PIPELINE_STAGE_BOTTOM_OF_PIPE_BIT ∧
    (transition_image_layout ⟨0, 0, 0, 0, 0, 0⟩ 7 VK_IMAGE_LAYOUT_GENERAL
        VK_IMAGE_LAYOUT_PRESENT_SRC_KHR 0).barrier.srcAccessMask = 0 ∧
    (transition_image_layout ⟨0, 0, 0, 0, 0, 0⟩ 7 VK_IMAGE_LAYOUT_GENERAL
        VK_IMAGE_LAYOUT_PRESENT_SRC_KHR 0).barrier.dstAccessMask = 0 :=
  transition_unhandled_pair ⟨0, 0, 0, 0, 0, 0⟩ 7 VK_IMAGE_LAYOUT_GENERAL
    VK_IMAGE_LAYOUT_PRESENT_SRC_KHR 0 (by decide) (by decide)

/-- Counterexample to C1 as stated: with old state General and new state General, neither
of which has a case in its switch, the source stage of the barrier is bottom-of-pipe and
not top-of-pipe. -/
theorem transition_unhandled_pair_not_top_of_pipe :
    VK_IMAGE_LAYOUT_GENERAL ∉ handled_old_layouts ∧
    VK_IMAGE_LAYOUT_GENERAL ∉ handled_new_layouts ∧
    (transition_image_layout ⟨0, 0, 0, 0, 0, 0⟩ 0 VK_IMAGE_LAYOUT_GENERAL
        VK_IMAGE_LAYOUT_GENERAL 0).srcStageMask = VK_PIPELINE_STAGE_BOTTOM_OF_PIPE_BIT ∧
    ¬ ((transition_image_layout ⟨0, 0, 0, 0, 0, 0⟩ 0 VK_IMAGE_LAYOUT_GENERAL
        VK_IMAGE_LAYOUT_GENERAL 0).srcStageMask = VK_PIPELINE_STAGE_TOP_OF_PIPE_BIT) := by
  decide

/-- The source switch of the explicit-stage overload computes the canonical table on
every state it has a case for. -/
theorem old_layout_switch_handled (b : VkImageMemoryBarrier) {s : VkImageLayout}
    (h : s ∈ handled_old_layouts) :
    (old_layout_switch b s).srcAccessMask = canonical_src_access s := by
  simp only [handled_old_layouts, List.mem_cons, List.mem_singleton, List.not_mem_nil,
    or_false] at h
  rcases h with h | h | h | h | h | h | h <;> subst h <;> rfl

/-- The source switch of the stage-inferring overload computes the canonical table on
every state, listed or not. -/
theorem old_layout_switch_infer_src (b : VkImageMemoryBarrier) (s : VkImageLayout) :
    (old_layout_switch_infer b s).1.srcAccessMask = canonical_src_access s := by
  unfold old_layout_switch_infer canonical_src_access
  split_ifs <;> rfl

/-- The source switches leave the destination mask alone. -/
theorem old_layout_switch_dst (b : VkImageMemoryBarrier) (s : VkImageLayout) :
    (old_layout_switch b s).dstAccessMask = b.dstAccessMask ∧
    (old_layout_switch_infer b s).1.dstAccessMask = b.dstAccessMask := by
  unfold old_layout_switch old_layout_switch_infer
  constructor <;> split_ifs <;> rfl

/-- The canonical table is empty exactly on Undefined and on the states it does not list. -/
theorem canonical_src_access_eq_zero_iff (s : VkImageLayout) :
    canonical_src_access s = 0 ↔ s = VK_IMAGE_LAYOUT_UNDEFINED ∨ s ∉ handled_old_layouts := by
  constructor
  · intro h
    by_cases hm : s ∈ handled_old_layouts
    · left
      simp only [handled_old_layouts, List.mem_cons, List.mem_singleton, List.not_mem_nil,
        or_false] at hm
      rcases hm with hm | hm | hm | hm | hm | hm | hm
      · exact hm
      all_goals (subst hm; revert h; decide)
    · exact Or.inr hm
  · rintro (h | h)
    · subst h; rfl
    · obtain ⟨h1, h2, h3, h4, h5, h6, h7⟩ := not_mem_handled_old h
      simp [canonical_src_access, h1, h2, h3, h4, h5, h6, h7]

/-- The ShaderReadOnly case of both target switches, on the source mask. -/
theorem new_layout_switch_shader_read_src (b : VkImageMemoryBarrier) :
    (new_layout_switch b VK_IMAGE_LAYOUT_SHADER_READ_ONLY_OPTIMAL).srcAccessMask =
      (if b.srcAccessMask = 0 then VK_ACCESS_HOST_WRITE_BIT ||| VK_ACCESS_TRANSFER_WRITE_BIT
       else b.srcAccessMask) ∧
    (new_layout_switch_infer b VK_IMAGE_LAYOUT_SHADER_READ_ONLY_OPTIMAL).1.srcAccessMask =
      (if b.srcAccessMask = 0 then VK_ACCESS_HOST_WRITE_BIT ||| VK_ACCESS_TRANSFER_WRITE_BIT
       else b.srcAccessMask) := by
  constructor
  · by_cases h : b.srcAccessMask = 0 <;>
      simp [new_layout_switch, h, VK_IMAGE_LAYOUT_SHADER_READ_ONLY_OPTIMAL,
        VK_IMAGE_LAYOUT_TRANSFER_DST_OPTIMAL, VK_IMAGE_LAYOUT_TRANSFER_SRC_OPTIMAL,
        VK_IMAGE_LAYOUT_COLOR_ATTACHMENT_OPTIMAL,
        VK_IMAGE_LAYOUT_DEPTH_STENCIL_ATTACHMENT_OPTIMAL]
  · by_cases h : b.srcAccessMask = 0 <;>
      simp [new_layout_switch_infer, h, VK_IMAGE_LAYOUT_SHADER_READ_ONLY_OPTIMAL,
        VK_IMAGE_LAYOUT_TRANSFER_DST_OPTIMAL, VK_IMAGE_LAYOUT_TRANSFER_SRC_OPTIMAL,
        VK_IMAGE_LAYOUT_COLOR_ATTACHMENT_OPTIMAL,
        VK_IMAGE_LAYOUT_DEPTH_STENCIL_ATTACHMENT_OPTIMAL]

/-- Outside the ShaderReadOnly case both target switches leave the source mask alone. -/
theorem new_layout_switch_src_of_ne (b : VkImageMemoryBarrier) {s : VkImageLayout}
    (h : s ≠ VK_IMAGE_LAYOUT_SHADER_READ_ONLY_OPTIMAL) :
    (new_layout_switch b s).srcAccessMask = b.srcAccessMask ∧
    (new_layout_switch_infer b s).1.srcAccessMask = b.srcAccessMask := by
  unfold new_layout_switch new_layout_switch_infer
  constructor <;> split_ifs <;> rfl

/-- The explicit-stage overload: the recorded barrier is the two switches applied in turn. -/
theorem transition_image_layout_stages_barrier (b0 : VkImageMemoryBarrier) (image : Nat)
    (old_layout new_layout : VkImageLayout) (s d : VkPipelineStageFlags) (r : Nat) :
    (transition_image_layout_stages b0 image old_layout new_layout s d r).barrier =
      new_layout_switch
        (old_layout_switch (init_barrier b0 image old_layout new_layout r) old_layout)
        new_layout := rfl

/-- The stage-inferring overload: the recorded barrier is the two switches applied in turn. -/
theorem transition_image_layout_barrier (b0 : VkImageMemoryBarrier) (image : Nat)
    (old_layout new_layout : VkImageLayout) (r : Nat) :
    (transition_image_layout b0 image old_layout new_layout r).barrier =
      (new_layout_switch_infer
        (old_layout_switch_infer (init_barrier b0 image old_layout new_layout r) old_layout).1
        new_layout).1 := rfl

/-- C3: a transition into ShaderReadOnly. When the source table gives the old state the
empty mask (Undefined, or a state the table does not list), both entry points issue
`srcAccessMask = HOST_WRITE | TRANSFER_WRITE`, which is not empty; when the table gives a
non-empty mask, both entry points issue exactly the table value. For the explicit-stage
entry point and an old state its switch has no case for, the mask in question is the one
the barrier object started with, so this case is stated for a barrier object that starts
with an empty source mask. -/
theorem transition_into_shader_read_only (b0 : VkImageMemoryBarrier) (image : Nat)
    (old_layout : VkImageLayout) (s d : VkPipelineStageFlags) (r : Nat) :
    (canonical_src_access old_layout = 0 ↔
      old_layout = VK_IMAGE_LAYOUT_UNDEFINED ∨ old_layout ∉ handled_old_layouts) ∧
    ((canonical_src_access old_layout = 0 →
        (transition_image_layout b0 image old_layout
          VK_IMAGE_LAYOUT_SHADER_READ_ONLY_OPTIMAL r).barrier.srcAccessMask
            = VK_ACCESS_HOST_WRITE_BIT ||| VK_ACCESS_TRANSFER_WRITE_BIT) ∧
      (canonical_src_access old_layout ≠ 0 →
        (transition_image_layout b0 image old_layout
          VK_IMAGE_LAYOUT_SHADER_READ_ONLY_OPTIMAL r).barrier.srcAccessMask
            = canonical_src_access old_layout)) ∧
    (old_layout ∈ handled_old_layouts ∨ b0.srcAccessMask = 0 →
      (canonical_src_access old_layout = 0 →
        (transition_image_layout_stages b0 image old_layout
          VK_IMAGE_LAYOUT_SHADER_READ_ONLY_OPTIMAL s d r).barrier.srcAccessMask
            = VK_ACCESS_HOST_WRITE_BIT ||| VK_ACCESS_TRANSFER_WRITE_BIT) ∧
      (canonical_src_access old_layout ≠ 0 →
        (transition_image_layout_stages b0 image old_layout
          VK_IMAGE_LAYOUT_SHADER_READ_ONLY_OPTIMAL s d r).barrier.srcAccessMask
            = canonical_src_access old_layout)) ∧
    VK_ACCESS_HOST_WRITE_BIT ||| VK_ACCESS_TRANSFER_WRITE_BIT ≠ 0 := by
  refine ⟨canonical_src_access_eq_zero_iff old_layout, ⟨?_, ?_⟩, ?_, by decide⟩
  · intro h0
    rw [transition_image_layout_barrier, (new_layout_switch_shader_read_src _).2,
      old_layout_switch_infer_src, h0]
    simp
  · intro h0
    rw [transition_image_layout_barrier, (new_layout_switch_shader_read_src _).2,
      old_layout_switch_infer_src]
    simp [h0]
  · intro hb
    have hexp : (old_layout_switch (init_barrier b0 image old_layout
        VK_IMAGE_LAYOUT_SHADER_READ_ONLY_OPTIMAL r) old_layout).srcAccessMask
        = canonical_src_access old_layout := by
      by_cases hm : old_layout ∈ handled_old_layouts
      · exact old_layout_switch_handled _ hm
      · rw [old_layout_switch_default _ hm,
          (canonical_src_access_eq_zero_iff old_layout).2 (Or.inr hm)]
        exact hb.resolve_left hm
    constructor
    · intro h0
      rw [transition_image_layout_stages_barrier, (new_layout_switch_shader_read_src _).1,
        hexp, h0]
      simp
    · intro h0
      rw [transition_image_layout_stages_barrier, (new_layout_switch_shader_read_src _).1,
        hexp]
      simp [h0]

/-- Witness for C3: old state General (not listed) and old state TransferDst (listed),
through the explicit-stage entry point, starting from a barrier object with empty masks. -/
theorem transition_into_shader_read_only_witness :
    (transition_image_layout_stages ⟨0, 0, 0, 0, 0, 0⟩ 1 VK_IMAGE_LAYOUT_GENERAL
        VK_IMAGE_LAYOUT_SHADER_READ_ONLY_OPTIMAL 1 2 0).barrier.srcAccessMask
          = VK_ACCESS_HOST_WRITE_BIT ||| VK_ACCESS_TRANSFER_WRITE_BIT ∧
    (transition_image_layout_stages ⟨0, 0, 0, 0, 0, 0⟩ 1 VK_IMAGE_LAYOUT_TRANSFER_DST_OPTIMAL
        VK_IMAGE_LAYOUT_SHADER_READ_ONLY_OPTIMAL 1 2 0).barrier.srcAccessMask
          = canonical_src_access VK_IMAGE_LAYOUT_TRANSFER_DST_OPTIMAL :=
  ⟨((transition_into_shader_read_only ⟨0, 0, 0, 0, 0, 0⟩ 1 VK_IMAGE_LAYOUT_GENERAL 1 2 0).2.2.1
      (Or.inr rfl)).1 (by decide),
   ((transition_into_shader_read_only ⟨0, 0, 0, 0, 0, 0⟩ 1 VK_IMAGE_LAYOUT_TRANSFER_DST_OPTIMAL
      1 2 0).2.2.1 (Or.inl (by decide))).2 (by decide)⟩

/-- C4: for every old state the source switch has a case for and every new state other
than ShaderReadOnly, the `srcAccessMask` issued by either overload is a function of the
old state alone, namely the canonical table: Undefined gives the empty mask, Preinitialized
HOST_WRITE, ColorAttachmentOptimal COLOR_ATTACHMENT_WRITE, DepthStencilAttachmentOptimal
DEPTH_STENCIL_ATTACHMENT_WRITE, TransferSrc TRANSFER_READ, TransferDst TRANSFER_WRITE and
ShaderReadOnly SHADER_READ. -/
theorem transition_src_access_canonical (b0 : VkImageMemoryBarrier) (image : Nat)
    (old_layout new_layout : VkImageLayout) (s d : VkPipelineStageFlags) (r : Nat)
    (hold : old_layout ∈ handled_old_layouts)
    (hnew : new_layout ≠ VK_IMAGE_LAYOUT_SHADER_READ_ONLY_OPTIMAL) :
    ((transition_image_layout_stages b0 image old_layout new_layout s d r).barrier.srcAccessMask
        = canonical_src_access old_layout ∧
     (transition_image_layout b0 image old_layout new_layout r).barrier.srcAccessMask
        = canonical_src_access old_layout) ∧
    (canonical_src_access VK_IMAGE_LAYOUT_UNDEFINED = 0 ∧
     canonical_src_access VK_IMAGE_LAYOUT_PREINITIALIZED = VK_ACCESS_HOST_WRITE_BIT ∧
     canonical_src_access VK_IMAGE_LAYOUT_COLOR_ATTACHMENT_OPTIMAL
        = VK_ACCESS_COLOR_ATTACHMENT_WRITE_BIT ∧
     canonical_src_access VK_IMAGE_LAYOUT_DEPTH_STENCIL_ATTACHMENT_OPTIMAL
        = VK_ACCESS_DEPTH_STENCIL_ATTACHMENT_WRITE_BIT ∧
     canonical_src_access VK_IMAGE_LAYOUT_TRANSFER_SRC_OPTIMAL = VK_ACCESS_TRANSFER_READ_BIT ∧
     canonical_src_access VK_IMAGE_LAYOUT_TRANSFER_DST_OPTIMAL = VK_ACCESS_TRANSFER_WRITE_BIT ∧
     canonical_src_access VK_IMAGE_LAYOUT_SHADER_READ_ONLY_OPTIMAL
        = VK_ACCESS_SHADER_READ_BIT) := by
  refine ⟨⟨?_, ?_⟩, by decide⟩
  · rw [transition_image_layout_stages_barrier, (new_layout_switch_src_of_ne _ hnew).1,
      old_layout_switch_handled _ hold]
  · rw [transition_image_layout_barrier, (new_layout_switch_src_of_ne _ hnew).2,
      old_layout_switch_infer_src]

/-- Witness for C4: ColorAttachmentOptimal to TransferSrc, from a barrier object whose
masks are not empty. -/
theorem transition_src_access_canonical_witness :
    (transition_image_layout_stages ⟨0xFF, 0xFF, 0, 0, 0, 0⟩ 3
        VK_IMAGE_LAYOUT_COLOR_ATTACHMENT_OPTIMAL VK_IMAGE_LAYOUT_TRANSFER_SRC_OPTIMAL
        1 2 0).barrier.srcAccessMask
      = canonical_src_access VK_IMAGE_LAYOUT_COLOR_ATTACHMENT_OPTIMAL ∧
    (transition_image_layout ⟨0xFF, 0xFF, 0, 0, 0, 0⟩ 3
        VK_IMAGE_LAYOUT_COLOR_ATTACHMENT_OPTIMAL VK_IMAGE_LAYOUT_TRANSFER_SRC_OPTIMAL
        0).barrier.srcAccessMask
      = canonical_src_access VK_IMAGE_LAYOUT_COLOR_ATTACHMENT_OPTIMAL :=
  (transition_src_access_canonical ⟨0xFF, 0xFF, 0, 0, 0, 0⟩ 3
    VK_IMAGE_LAYOUT_COLOR_ATTACHMENT_OPTIMAL VK_IMAGE_LAYOUT_TRANSFER_SRC_OPTIMAL 1 2 0
    (by decide) (by decide)).1

/-- The destination mask either target switch produces, as a function of the mask the
barrier held before it and of the new state. -/
theorem new_layout_switch_dst (b b2 : VkImageMemoryBarrier) (s : VkImageLayout)
    (h : b.dstAccessMask = b2.dstAccessMask) :
    (new_layout_switch b s).dstAccessMask = (new_layout_switch b2 s).dstAccessMask ∧
    (new_layout_switch_infer b s).1.dstAccessMask
      = (new_layout_switch_infer b2 s).1.dstAccessMask := by
  unfold new_layout_switch new_layout_switch_infer
  constructor <;> split_ifs <;> simp [h]

/-- On the transfer and attachment states a target switch produces the canonical source
mask of that state; the depth-stencil case ORs into the mask and needs it empty before. -/
theorem new_layout_switch_dst_mirror (b : VkImageMemoryBarrier) {s : VkImageLayout}
    (hs : s ∈ [VK_IMAGE_LAYOUT_TRANSFER_SRC_OPTIMAL, VK_IMAGE_LAYOUT_TRANSFER_DST_OPTIMAL,
      VK_IMAGE_LAYOUT_COLOR_ATTACHMENT_OPTIMAL,
      VK_IMAGE_LAYOUT_DEPTH_STENCIL_ATTACHMENT_OPTIMAL])
    (hb : s = VK_IMAGE_LAYOUT_DEPTH_STENCIL_ATTACHMENT_OPTIMAL → b.dstAccessMask = 0) :
    (new_layout_switch b s).dstAccessMask = canonical_src_access s ∧
    (new_layout_switch_infer b s).1.dstAccessMask = canonical_src_access s := by
  simp only [List.mem_cons, List.mem_singleton, List.not_mem_nil, or_false] at hs
  rcases hs with h | h | h | h <;> subst h
  · exact ⟨rfl, rfl⟩
  · exact ⟨rfl, rfl⟩
  · exact ⟨rfl, rfl⟩
  · have hb0 := hb rfl
    simp [new_layout_switch, new_layout_switch_infer, canonical_src_access, hb0,
      VK_IMAGE_LAYOUT_UNDEFINED, VK_IMAGE_LAYOUT_PREINITIALIZED,
      VK_IMAGE_LAYOUT_TRANSFER_DST_OPTIMAL, VK_IMAGE_LAYOUT_TRANSFER_SRC_OPTIMAL,
      VK_IMAGE_LAYOUT_COLOR_ATTACHMENT_OPTIMAL, VK_IMAGE_LAYOUT_DEPTH_STENCIL_ATTACHMENT_OPTIMAL]

/-- C5: the destination table mirrors the source table. For a new state `s` among
TransferSrc, TransferDst, ColorAttachmentOptimal and DepthStencilAttachmentOptimal the
`dstAccessMask` either overload issues equals the `srcAccessMask` its source switch assigns
to the old state `s` (the depth-stencil case ORs its bit into the mask, so there the barrier
object is taken to start with an empty destination mask); for the new state ShaderReadOnly
it is SHADER_READ; and for every new state it is the same whatever the old state is. -/
theorem transition_dst_access_mirrors (b0 b : VkImageMemoryBarrier) (image : Nat)
    (old_layout other_old new_layout : VkImageLayout) (s d : VkPipelineStageFlags) (r : Nat) :
    (new_layout ∈ [VK_IMAGE_LAYOUT_TRANSFER_SRC_OPTIMAL, VK_IMAGE_LAYOUT_TRANSFER_DST_OPTIMAL,
        VK_IMAGE_LAYOUT_COLOR_ATTACHMENT_OPTIMAL,
        VK_IMAGE_LAYOUT_DEPTH_STENCIL_ATTACHMENT_OPTIMAL] →
      (new_layout = VK_IMAGE_LAYOUT_DEPTH_STENCIL_ATTACHMENT_OPTIMAL → b0.dstAccessMask = 0) →
      (transition_image_layout_stages b0 image old_layout new_layout s d r).barrier.dstAccessMask
        = (old_layout_switch b new_layout).srcAccessMask ∧
      (transition_image_layout b0 image old_layout new_layout r).barrier.dstAccessMask
        = (old_layout_switch_infer b new_layout).1.srcAccessMask) ∧
    ((transition_image_layout_stages b0 image old_layout
        VK_IMAGE_LAYOUT_SHADER_READ_ONLY_OPTIMAL s d r).barrier.dstAccessMask
        = VK_ACCESS_SHADER_READ_BIT ∧
      (transition_image_layout b0 image old_layout
        VK_IMAGE_LAYOUT_SHADER_READ_ONLY_OPTIMAL r).barrier.dstAccessMask
        = VK_ACCESS_SHADER_READ_BIT) ∧
    ((transition_image_layout_stages b0 image old_layout new_layout s d r).barrier.dstAccessMask
        = (transition_image_layout_stages b0 image other_old new_layout
            s d r).barrier.dstAccessMask ∧
      (transition_image_layout b0 image old_layout new_layout r).barrier.dstAccessMask
        = (transition_image_layout b0 image other_old new_layout r).barrier.dstAccessMask) := by
  have hd : ∀ o : VkImageLayout,
      (old_layout_switch (init_barrier b0 image o new_layout r) o).dstAccessMask
        = b0.dstAccessMask ∧
      (old_layout_switch_infer (init_barrier b0 image o new_layout r) o).1.dstAccessMask
        = b0.dstAccessMask := fun o => old_layout_switch_dst _ o
  refine ⟨?_, ?_, ?_⟩
  · intro hmem hb0
    have h1 := (hd old_layout).1
    have h2 := (hd old_layout).2
    have hold : new_layout ∈ handled_old_layouts := by
      simp only [List.mem_cons, List.mem_singleton, List.not_mem_nil, or_false] at hmem
      rcases hmem with h | h | h | h <;> subst h <;> decide
    rw [transition_image_layout_stages_barrier, transition_image_layout_barrier,
      old_layout_switch_handled _ hold, old_layout_switch_infer_src,
      (new_layout_switch_dst_mirror _ hmem (fun h => by rw [h1]; exact hb0 h)).1,
      (new_layout_switch_dst_mirror _ hmem (fun h => by rw [h2]; exact hb0 h)).2]
    exact ⟨rfl, rfl⟩
  · rw [transition_image_layout_stages_barrier, transition_image_layout_barrier]
    constructor <;>
      simp [new_layout_switch, new_layout_switch_infer, VK_IMAGE_LAYOUT_SHADER_READ_ONLY_OPTIMAL,
        VK_IMAGE_LAYOUT_TRANSFER_DST_OPTIMAL, VK_IMAGE_LAYOUT_TRANSFER_SRC_OPTIMAL,
        VK_IMAGE_LAYOUT_COLOR_ATTACHMENT_OPTIMAL,
        VK_IMAGE_LAYOUT_DEPTH_STENCIL_ATTACHMENT_OPTIMAL]
  · rw [transition_image_layout_stages_barrier, transition_image_layout_stages_barrier,
      transition_image_layout_barrier, transition_image_layout_barrier]
    exact ⟨(new_layout_switch_dst _ _ _
        (by rw [(hd old_layout).1, (old_layout_switch_dst _ other_old).1]; rfl)).1,
      (new_layout_switch_dst _ _ _
        (by rw [(hd old_layout).2, (old_layout_switch_dst _ other_old).2]; rfl)).2⟩

/-- Witness for C5: new state DepthStencilAttachmentOptimal (the case that ORs into the
mask), old state Undefined, from a barrier object with empty masks. -/
theorem transition_dst_access_mirrors_witness :
    (transition_image_layout_stages ⟨0, 0, 0, 0, 0, 0⟩ 1 VK_IMAGE_LAYOUT_UNDEFINED
        VK_IMAGE_LAYOUT_DEPTH_STENCIL_ATTACHMENT_OPTIMAL 1 2 0).barrier.dstAccessMask
      = (old_layout_switch ⟨0xFF, 0xFF, 0, 0, 0, 0⟩
          VK_IMAGE_LAYOUT_DEPTH_STENCIL_ATTACHMENT_OPTIMAL).srcAccessMask ∧
    (transition_image_layout ⟨0, 0, 0, 0, 0, 0⟩ 1 VK_IMAGE_LAYOUT_UNDEFINED
        VK_IMAGE_LAYOUT_DEPTH_STENCIL_ATTACHMENT_OPTIMAL 0).barrier.dstAccessMask
      = (old_layout_switch_infer ⟨0xFF, 0xFF, 0, 0, 0, 0⟩
          VK_IMAGE_LAYOUT_DEPTH_STENCIL_ATTACHMENT_OPTIMAL).1.srcAccessMask :=
  (transition_dst_access_mirrors ⟨0, 0, 0, 0, 0, 0⟩ ⟨0xFF, 0xFF, 0, 0, 0, 0⟩ 1
    VK_IMAGE_LAYOUT_UNDEFINED VK_IMAGE_LAYOUT_GENERAL
    VK_IMAGE_LAYOUT_DEPTH_STENCIL_ATTACHMENT_OPTIMAL 1 2 0).1 (by decide) (fun _ => rfl)

/-! ## Render pass construction -/

/-- The loop over the color formats appends one description and one reference per format. -/
theorem color_attachment_foldl (clear_color : Bool) (initial_layout final_layout : VkImageLayout)
    (formats : List VkFormat) (acc : List VkAttachmentDescription × List VkAttachmentReference) :
    ((formats.foldl (color_attachment_step clear_color initial_layout final_layout) acc).1.length
        = acc.1.length + formats.length) ∧
    ((formats.foldl (color_attachment_step clear_color initial_layout final_layout) acc).2.length
        = acc.2.length + formats.length) := by
  induction formats generalizing acc with
  | nil => simp
  | cons f fs ih =>
    have h := ih (color_attachment_step clear_color initial_layout final_layout acc f)
    simp only [List.foldl_cons, List.length_cons]
    constructor
    · rw [h.1]; simp [color_attachment_step]; omega
    · rw [h.2]; simp [color_attachment_step]; omega

/-- The step of the depth attachment appends one description exactly when a depth format
is given. -/
theorem depth_attachment_step_length (depth_attachment_format : VkFormat) (clear_depth : Bool)
    (all_attachments : List VkAttachmentDescription) :
    (depth_attachment_step depth_attachment_format clear_depth all_attachments).1.length
      = all_attachments.length +
        (if depth_attachment_format ≠ VK_FORMAT_UNDEFINED then 1 else 0) := by
  unfold depth_attachment_step
  split_ifs <;> simp

/-- The subpass loop over a list of indices appends, for each index in order, one subpass
and one dependency. -/
theorem subpass_foldl (refs : List VkAttachmentReference) (has_depth : Bool)
    (depth_ref : VkAttachmentReference) (indices : List Nat)
    (acc : List VkSubpassDescription × List VkSubpassDependency) :
    indices.foldl (subpass_step refs has_depth depth_ref) acc =
      (acc.1 ++ indices.map (fun i => (subpass_step refs has_depth depth_ref ([], []) i).1.headD
          ⟨0, 0, [], none⟩),
       acc.2 ++ indices.map (fun i => (subpass_step refs has_depth depth_ref ([], []) i).2.headD
          ⟨0, 0, 0, 0, 0, 0⟩)) := by
  induction indices generalizing acc with
  | nil => simp
  | cons i rest ih =>
    rw [List.foldl_cons, ih]
    simp [subpass_step]

/-- The create-info in terms of the three loops. -/
theorem render_pass_create_info_eq (formats : List VkFormat) (depth : VkFormat) (k : Nat)
    (clear_color clear_depth : Bool) (initial_layout final_layout : VkImageLayout) :
    render_pass_create_info formats depth k clear_color clear_depth initial_layout final_layout =
      let colors := formats.foldl
        (color_attachment_step clear_color initial_layout final_layout) ([], [])
      let depth_step := depth_attachment_step depth clear_depth colors.1
      let loops := (List.range k).foldl
        (subpass_step colors.2 (decide (depth ≠ VK_FORMAT_UNDEFINED)) depth_step.2) ([], [])
      { attachmentCount := to_uint32 depth_step.1.length
        pAttachments := depth_step.1
        subpassCount := to_uint32 loops.1.length
        pSubpasses := loops.1
        dependencyCount := to_uint32 loops.2.length
        pDependencies := loops.2 } := rfl

/-- C6: for every list of color formats, every depth format and every subpass count `k`
(a `uint32_t`), the create-info `create_render_pass` builds describes exactly
`n + (1 if the depth format is not Undefined, else 0)` attachments, exactly `k` subpasses
and exactly `k` dependencies; dependency `i` has `dstSubpass = i`, dependency 0 has
`srcSubpass = VK_SUBPASS_EXTERNAL` and every dependency `i > 0` has `srcSubpass = i - 1`. -/
theorem create_render_pass_shape (formats : List VkFormat) (depth : VkFormat) (k : Nat)
    (clear_color clear_depth : Bool) (initial_layout final_layout : VkImageLayout)
    (hk : k < 2 ^ 32) :
    (render_pass_create_info formats depth k clear_color clear_depth initial_layout
        final_layout).pAttachments.length
      = formats.length + (if depth ≠ VK_FORMAT_UNDEFINED then 1 else 0) ∧
    (formats.length + 1 < 2 ^ 32 →
      (render_pass_create_info formats depth k clear_color clear_depth initial_layout
          final_layout).attachmentCount
        = formats.length + (if depth ≠ VK_FORMAT_UNDEFINED then 1 else 0)) ∧
    (render_pass_create_info formats depth k clear_color clear_depth initial_layout
        final_layout).pSubpasses.length = k ∧
    (render_pass_create_info formats depth k clear_color clear_depth initial_layout
        final_layout).subpassCount = k ∧
    (render_pass_create_info formats depth k clear_color clear_depth initial_layout
        final_layout).pDependencies.length = k ∧
    (render_pass_create_info formats depth k clear_color clear_depth initial_layout
        final_layout).dependencyCount = k ∧
    (∀ i, i < k → ∃ dep,
      (render_pass_create_info formats depth k clear_color clear_depth initial_layout
          final_layout).pDependencies[i]? = some dep ∧
      dep.dstSubpass = i ∧ (i = 0 → dep.srcSubpass = VK_SUBPASS_EXTERNAL) ∧
      (0 < i → dep.srcSubpass = i - 1)) := by
  have hatt : (render_pass_create_info formats depth k clear_color clear_depth initial_layout
        final_layout).pAttachments.length
      = formats.length + (if depth ≠ VK_FORMAT_UNDEFINED then 1 else 0) := by
    rw [render_pass_create_info_eq]
    simp only [depth_attachment_step_length, (color_attachment_foldl _ _ _ _ _).1]
    simp
  have hcount : (render_pass_create_info formats depth k clear_color clear_depth initial_layout
        final_layout).attachmentCount
      = to_uint32 (render_pass_create_info formats depth k clear_color clear_depth
          initial_layout final_layout).pAttachments.length := by
    rw [render_pass_create_info_eq]
  refine ⟨hatt, ?_, ?_, ?_, ?_, ?_, ?_⟩
  · intro hn
    rw [hcount, hatt, to_uint32]
    apply Nat.mod_eq_of_lt
    split_ifs <;> omega
  · rw [render_pass_create_info_eq]; simp [subpass_foldl]
  · rw [render_pass_create_info_eq]; simp [subpass_foldl, to_uint32]; omega
  · rw [render_pass_create_info_eq]; simp [subpass_foldl]
  · rw [render_pass_create_info_eq]; simp [subpass_foldl, to_uint32]; omega
  · intro i hi
    rw [render_pass_create_info_eq]
    simp only [subpass_foldl, List.nil_append, List.getElem?_map,
      List.getElem?_range hi, Option.map_some']
    refine ⟨_, rfl, ?_, ?_, ?_⟩
    · simp [subpass_step]
    · intro h0; simp [subpass_step, h0]
    · intro h0; simp [subpass_step, Nat.pos_iff_ne_zero.mp h0]

/-- Witness for C6: two color formats, a depth format and three subpasses give three
attachments, three subpasses and three dependencies whose sources are the external
marker, 0 and 1. -/
theorem create_render_pass_shape_witness :
    (render_pass_create_info [44, 37] 126 3 true true VK_IMAGE_LAYOUT_UNDEFINED
        VK_IMAGE_LAYOUT_PRESENT_SRC_KHR).pAttachments.length = 3 ∧
    (render_pass_create_info [44, 37] 126 3 true true VK_IMAGE_LAYOUT_UNDEFINED
        VK_IMAGE_LAYOUT_PRESENT_SRC_KHR).attachmentCount = 3 ∧
    (render_pass_create_info [44, 37] 126 3 true true VK_IMAGE_LAYOUT_UNDEFINED
        VK_IMAGE_LAYOUT_PRESENT_SRC_KHR).subpassCount = 3 ∧
    (render_pass_create_info [44, 37] 126 3 true true VK_IMAGE_LAYOUT_UNDEFINED
        VK_IMAGE_LAYOUT_PRESENT_SRC_KHR).dependencyCount = 3 ∧
    (render_pass_create_info [44, 37] 126 3 true true VK_IMAGE_LAYOUT_UNDEFINED
        VK_IMAGE_LAYOUT_PRESENT_SRC_KHR).pDependencies.map (fun dep => dep.srcSubpass)
      = [VK_SUBPASS_EXTERNAL, 0, 1] :=
  have h := create_render_pass_shape [44, 37] 126 3 true true VK_IMAGE_LAYOUT_UNDEFINED
    VK_IMAGE_LAYOUT_PRESENT_SRC_KHR (by decide)
  ⟨h.1, h.2.1 (by decide), h.2.2.2.1, h.2.2.2.2.2.1, by decide⟩

/-! ## Single-precision arithmetic -/

theorem ilog2_fuel_spec (fuel : Nat) : ∀ n, n ≤ fuel → 0 < n →
    2 ^ ilog2_fuel fuel n ≤ n ∧ n < 2 ^ (ilog2_fuel fuel n + 1) := by
  induction fuel with
  | zero => intro n h1 h2; omega
  | succ fuel ih =>
    intro n h1 h2
    unfold ilog2_fuel
    by_cases h : n < 2
    · simp only [h, if_true]; constructor <;> simp <;> omega
    · simp only [h, if_false]
      have := ih (n / 2) (by omega) (by omega)
      rw [Nat.pow_succ, Nat.pow_succ]
      omega

theorem ilog2_spec (n : Nat) (h : 0 < n) : 2 ^ ilog2 n ≤ n ∧ n < 2 ^ (ilog2 n + 1) :=
  ilog2_fuel_spec n n (Nat.le_refl n) h

theorem ilog2_eq (n k : Nat) (h1 : 2 ^ k ≤ n) (h2 : n < 2 ^ (k + 1)) : ilog2 n = k := by
  have hn : 0 < n := Nat.lt_of_lt_of_le (Nat.two_pow_pos k) h1
  obtain ⟨h3, h4⟩ := ilog2_spec n hn
  have a : ilog2 n < k + 1 := (Nat.pow_lt_pow_iff_right (by decide : 1 < 2)).1 (Nat.lt_of_le_of_lt h3 h2)
  have b : k < ilog2 n + 1 := (Nat.pow_lt_pow_iff_right (by decide : 1 < 2)).1 (Nat.lt_of_le_of_lt h1 h4)
  omega

theorem ilog2_lt (n k : Nat) (h : n < 2 ^ k) (hn : 0 < n) : ilog2 n < k := by
  obtain ⟨h3, _⟩ := ilog2_spec n hn
  exact (Nat.pow_lt_pow_iff_right (by decide : 1 < 2)).1 (Nat.lt_of_le_of_lt h3 h)

theorem f32_of_int_small (n : Nat) (h : n < 2 ^ 24) : f32_of_int n = n := by
  have hs : ilog2 n - 23 = 0 := by
    rcases Nat.eq_zero_or_pos n with h0 | h0
    · subst h0; rfl
    · have := ilog2_lt n 24 h h0; omega
  simp [f32_of_int, hs, rne, Nat.mod_one]

theorem rne_cases (num den : Nat) :
    (rne num den = num / den ∧ 2 * (num % den) ≤ den) ∨
    (rne num den = num / den + 1 ∧ den ≤ 2 * (num % den)) := by
  unfold rne
  simp only []
  split_ifs <;> simp <;> omega

theorem f32_of_int_range (n : Nat) (h1 : 1 ≤ n) (h2 : n < 2 ^ 31) :
    1 ≤ f32_of_int n ∧ f32_of_int n ≤ 2 ^ 31 ∧
    (∀ j, 24 ≤ j → j ≤ 31 → 2 ^ j ≤ f32_of_int n → f32_of_int n % 2 ^ (j - 23) = 0) := by
  by_cases hs : n < 2 ^ 24
  · rw [f32_of_int_small n hs]
    refine ⟨h1, by omega, ?_⟩
    intro j hj1 hj2 hj3
    have : 2 ^ 24 ≤ 2 ^ j := Nat.pow_le_pow_right (by decide) hj1
    omega
  · obtain ⟨h3, h4⟩ := ilog2_spec n (by omega)
    have hk : ilog2 n < 31 := ilog2_lt n 31 h2 (by omega)
    have hk2 : 23 < ilog2 n := by
      by_contra hc
      have : 2 ^ (ilog2 n + 1) ≤ 2 ^ 24 := Nat.pow_le_pow_right (by decide) (by omega)
      omega
    unfold f32_of_int
    simp only []
    have hq := rne_cases n (2 ^ (ilog2 n - 23))
    generalize rne n (2 ^ (ilog2 n - 23)) = m at hq ⊢
    generalize ilog2 n = k at *
    interval_cases k <;> norm_num at h3 h4 hq ⊢ <;>
      refine ⟨by omega, by omega, ?_⟩ <;>
      intro j hj1 hj2 <;> interval_cases j <;> norm_num <;> omega

theorem ilog2_1024 : ilog2 1024 = 10 := by decide

theorem f32_div_ceil_1024 (a : Nat) (h1 : 1 ≤ a) (h2 : a ≤ 2 ^ 31)
    (hrep : ∀ j, 24 ≤ j → j ≤ 31 → 2 ^ j ≤ a → a % 2 ^ (j - 23) = 0) :
    f32_div_ceil a 1024 = (a + 1023) / 1024 := by
  obtain ⟨h3, h4⟩ := ilog2_spec a (by omega)
  have hk : ilog2 a < 32 := ilog2_lt a 32 (by omega) (by omega)
  have hr := hrep (ilog2 a)
  unfold f32_div_ceil
  rw [ilog2_1024, if_neg (by omega)]
  simp only []
  have ht : 1024 * 2 ^ ilog2 a ≤ a * 2 ^ 10 := by omega
  rw [if_pos ht]
  unfold rne
  simp only []
  generalize ilog2 a = k at *
  clear hrep ht
  interval_cases k <;>
    simp only [Nat.reducePow, Nat.reduceAdd, Nat.reduceSub, Nat.reduceMul, Nat.reduceLeDiff,
      forall_const] at h3 h4 hr ⊢ <;>
    split_ifs <;> omega

/-- Conversion to `float` keeps a value between the powers of two that enclose it. -/
theorem f32_of_int_bounds (n j : Nat) (hj : j ≤ 31) :
    (2 ^ j ≤ n → n < 2 ^ 31 → 2 ^ j ≤ f32_of_int n) ∧
    (n ≤ 2 ^ j → f32_of_int n ≤ 2 ^ j) := by
  by_cases hs : n < 2 ^ 24
  · rw [f32_of_int_small n hs]
    exact ⟨fun h _ => h, fun h => h⟩
  · have hn : 0 < n := by omega
    obtain ⟨h3, h4⟩ := ilog2_spec n hn
    have hk2 : 23 < ilog2 n := by
      by_contra hc
      have : 2 ^ (ilog2 n + 1) ≤ 2 ^ 24 := Nat.pow_le_pow_right (by decide) (by omega)
      omega
    constructor
    · intro h5 h6
      have hk : ilog2 n < 31 := ilog2_lt n 31 h6 hn
      unfold f32_of_int
      simp only []
      have hq := rne_cases n (2 ^ (ilog2 n - 23))
      generalize rne n (2 ^ (ilog2 n - 23)) = m at hq ⊢
      generalize ilog2 n = k at *
      interval_cases k <;> interval_cases j <;>
        simp only [Nat.reducePow, Nat.reduceAdd, Nat.reduceSub] at h3 h4 h5 hq ⊢ <;> omega
    · intro h5
      have h7 : n ≤ 2 ^ 31 := Nat.le_trans h5 (Nat.pow_le_pow_right (by decide) hj)
      have hk : ilog2 n < 32 := ilog2_lt n 32 (by omega) hn
      unfold f32_of_int
      simp only []
      have hq := rne_cases n (2 ^ (ilog2 n - 23))
      generalize rne n (2 ^ (ilog2 n - 23)) = m at hq ⊢
      generalize ilog2 n = k at *
      interval_cases k <;> interval_cases j <;>
        simp only [Nat.reducePow, Nat.reduceAdd, Nat.reduceSub] at h3 h4 h5 hq ⊢ <;> omega

/-- For a non-negative `int n` the expression `(int)ceil(n / 1024.0f)` is the exact
ceiling of `float(n) / 1024`. -/
theorem ceil_div_1024f_eq (n : Nat) (h : n < 2 ^ 31) :
    ceil_div_1024f n = (f32_of_int n + 1023) / 1024 := by
  rcases Nat.eq_zero_or_pos n with h0 | h0
  · subst h0; decide
  · obtain ⟨h1, h2, h3⟩ := f32_of_int_range n h0 h
    exact f32_div_ceil_1024 _ h1 h2 h3

/-- Below `2 ^ 24` the expression `(int)ceil(n / 1024.0f)` is the exact ceiling of
`n / 1024`. -/
theorem ceil_div_1024f_small (n : Nat) (h : n < 2 ^ 24) :
    ceil_div_1024f n = (n + 1023) / 1024 := by
  rw [ceil_div_1024f_eq n (by omega), f32_of_int_small n h]

/-! ## Reduction scheduling -/

/-- Unfolding of `R + 2` copies of a block separated by `sep`. -/
theorem intercalate_replicate_succ_succ {α : Type} (sep x : List α) (n : Nat) :
    List.intercalate sep (List.replicate (n + 2) x)
      = x ++ sep ++ List.intercalate sep (List.replicate (n + 1) x) := by
  simp [List.intercalate, List.replicate_succ, List.intersperse]

theorem reduce_loop_one (r c : Buffer) (rp : Pipeline) (dim fuel : Nat) :
    reduce_loop r c rp dim fuel 1 = some [] := by
  cases fuel <;> simp [reduce_loop]

theorem reduce_loop_rounds (r c : Buffer) (rp : Pipeline) (dim : Nat) :
    ∀ R fuel w, 1 ≤ w → w < 2 ^ 24 → w ≤ 1024 ^ R → (∀ j, j < R → 1024 ^ j < w) → R ≤ fuel →
      reduce_loop r c rp dim fuel w = some (List.intercalate [round_barrier r c]
        (List.replicate R (dispatch_compute rp 1024 1 dim 1))) := by
  intro R
  induction R with
  | zero =>
    intro fuel w h1 _ h3 _ _
    have hw : w = 1 := by simp at h3; omega
    subst hw
    simpa [List.intercalate] using reduce_loop_one r c rp dim fuel
  | succ R ih =>
    intro fuel w h1 h2 h3 h4 h5
    have hw1 : 1 < w := by simpa using h4 0 (Nat.succ_pos R)
    obtain ⟨f, rfl⟩ : ∃ f, fuel = f + 1 := ⟨fuel - 1, by omega⟩
    have hw' : ceil_div_1024f w = (w + 1023) / 1024 := ceil_div_1024f_small w h2
    have hb1 : (w + 1023) / 1024 ≤ 1024 ^ R := by
      rw [Nat.pow_succ] at h3
      generalize 1024 ^ R = X at h3 ⊢
      omega
    have hb2 : ∀ j, j < R → 1024 ^ j < (w + 1023) / 1024 := by
      intro j hj
      have := h4 (j + 1) (by omega)
      rw [Nat.pow_succ] at this
      generalize 1024 ^ j = Y at this ⊢
      omega
    have hrec := ih f ((w + 1023) / 1024) (by omega) (by omega) hb1 hb2 (by omega)
    rw [reduce_loop, if_pos (by omega)]
    simp only [hw', hrec, Option.map_some']
    cases R with
    | zero =>
      have : (w + 1023) / 1024 = 1 := by simp at hb1; omega
      simp [this, List.intercalate]
    | succ R =>
      have : (w + 1023) / 1024 > 1 := by simpa using hb2 0 (Nat.succ_pos R)
      rw [if_pos this, intercalate_replicate_succ_succ]

/-- A workgroup count between 1 and `2 ^ 21` needs at most three rounds. -/
theorem rounds_exist (w : Nat) (h1 : 1 ≤ w) (h2 : w ≤ 2 ^ 21) :
    ∃ R, R ≤ 3 ∧ w ≤ 1024 ^ R ∧ ∀ j, j < R → 1024 ^ j < w := by
  by_cases c0 : w = 1
  · exact ⟨0, by omega, by omega, fun j hj => by omega⟩
  by_cases c1 : w ≤ 1024
  · exact ⟨1, by omega, by omega, fun j hj => by interval_cases j; omega⟩
  by_cases c2 : w ≤ 1024 ^ 2
  · exact ⟨2, by omega, c2, fun j hj => by interval_cases j <;> omega⟩
  · exact ⟨3, by omega, by omega, fun j hj => by interval_cases j <;> omega⟩

/-- The starting value of `num_wgs` for a positive 32-bit `dim`. -/
theorem ceil_div_1024f_start (dim : Nat) (h1 : 1 ≤ dim) (h2 : dim ≤ 2 ^ 31 - 1) :
    1 ≤ ceil_div_1024f dim ∧ ceil_div_1024f dim ≤ 2 ^ 21 := by
  obtain ⟨h3, h4, _⟩ := f32_of_int_range dim h1 (by omega)
  rw [ceil_div_1024f_eq dim (by omega)]
  omega

/-- The update of `num_wgs` on a value above 1 and at most `2 ^ 21`. -/
theorem ceil_div_1024f_step (w : Nat) (h1 : 1 < w) (h2 : w ≤ 2 ^ 21) :
    ceil_div_1024f w = (w + 1023) / 1024 ∧ 1 ≤ ceil_div_1024f w ∧ ceil_div_1024f w < w := by
  rw [ceil_div_1024f_small w (by omega)]
  omega

/-- With `dim = 0` the loop condition `num_wgs != 1` never becomes false: no amount of
fuel lets `reduce` return. -/
theorem reduce_zero_dim_never_returns (r c : Buffer) (op rp : Pipeline) (fuel : Nat) :
    reduce r c op rp 0 fuel = none := by
  have h0 : ceil_div_1024f 0 = 0 := by decide
  have hl : ∀ f, reduce_loop r c rp 0 f 0 = none := by
    intro f
    induction f with
    | zero => simp [reduce_loop]
    | succ f ih => simp [reduce_loop, h0, ih]
  simp [reduce, h0, hl]

/-- For every positive 32-bit `dim` the rounds `reduce` records are counted by the value
`num_wgs` the code computes at line 407: with `R` the least `r` such that
`num_wgs ≤ 1024 ^ r`, the prologue is followed by `R` reduce dispatches separated by
`R - 1` round barriers, and no barrier follows the last dispatch. -/
theorem reduce_rounds_from_num_wgs (r c : Buffer) (op rp : Pipeline) (dim R fuel : Nat)
    (h1 : 1 ≤ dim) (h2 : dim ≤ 2 ^ 31 - 1) (hR : ceil_div_1024f dim ≤ 1024 ^ R)
    (hmin : ∀ j, j < R → 1024 ^ j < ceil_div_1024f dim) (hf : R ≤ fuel) :
    reduce r c op rp dim fuel = some (reduce_prologue r c op dim ++
      List.intercalate [round_barrier r c]
        (List.replicate R (dispatch_compute rp 1024 1 dim 1))) := by
  have hstart := ceil_div_1024f_start dim h1 h2
  unfold reduce
  simp only []
  rw [reduce_loop_rounds r c rp dim R fuel _ hstart.1 (by omega) hR hmin hf]
  rfl

/-- For `1 ≤ dim ≤ 2 ^ 30` the rounds `reduce` records are the ones counted from the
exact `w0 = ceil(dim / 1024)`: with `R` the least `r` such that `w0 ≤ 1024 ^ r`, the
prologue is followed by `R` reduce dispatches separated by `R - 1` round barriers. -/
theorem reduce_rounds_up_to_pow_30 (r c : Buffer) (op rp : Pipeline) (dim R fuel : Nat)
    (h1 : 1 ≤ dim) (h2 : dim ≤ 2 ^ 30) (hR : (dim + 1023) / 1024 ≤ 1024 ^ R)
    (hmin : ∀ j, j < R → 1024 ^ j < (dim + 1023) / 1024) (hf : R ≤ fuel) :
    reduce r c op rp dim fuel = some (reduce_prologue r c op dim ++
      List.intercalate [round_barrier r c]
        (List.replicate R (dispatch_compute rp 1024 1 dim 1))) := by
  have hstart := ceil_div_1024f_start dim h1 (by omega)
  unfold reduce
  simp only []
  by_cases hs : dim < 2 ^ 24
  · rw [reduce_loop_rounds r c rp dim R fuel _ hstart.1 (by omega)
      (by rw [ceil_div_1024f_small dim hs]; exact hR)
      (by rw [ceil_div_1024f_small dim hs]; exact hmin) hf]
    rfl
  · have hb1 := (f32_of_int_bounds dim 24 (by omega)).1 (by omega) (by omega)
    have hb2 := (f32_of_int_bounds dim 30 (by omega)).2 h2
    have hw := ceil_div_1024f_eq dim (by omega)
    have hR2 : R = 2 := by
      rcases Nat.lt_trichotomy R 2 with h | h | h
      · exfalso; interval_cases R <;> omega
      · exact h
      · exfalso; have := hmin 2 h; omega
    subst hR2
    rw [reduce_loop_rounds r c rp dim 2 fuel _ hstart.1 (by omega) (by omega)
      (fun j hj => by interval_cases j <;> omega) hf]
    rfl

/-- C7 (failing input `dim = 2 ^ 30 + 1`): the exact `w0 = ceil(dim / 1024)` is
`2 ^ 20 + 1`, for which the least `r` with `1024 ^ r ≥ w0` is 3; the code computes
`num_wgs = (int)ceil(dim / 1024.0f) = 2 ^ 20` in single precision, dispatches the op
pipeline over `2 ^ 20` workgroups, and records two reduce dispatches with one round
barrier between them. -/
theorem reduce_rounds_single_precision (r c : Buffer) (op rp : Pipeline) (fuel : Nat) :
    ((2 ^ 30 + 1 + 1023) / 1024 = 2 ^ 20 + 1 ∧ ¬ (2 ^ 20 + 1 ≤ 1024 ^ 2) ∧
      2 ^ 20 + 1 ≤ 1024 ^ 3) ∧
    ceil_div_1024f (2 ^ 30 + 1) = 2 ^ 20 ∧
    dispatch_compute op 1024 1 (2 ^ 30 + 1) 1 =
      [Cmd.bindPipeline VK_PIPELINE_BIND_POINT_COMPUTE op.handle, Cmd.dispatch (2 ^ 20) 1 1] ∧
    reduce r c op rp (2 ^ 30 + 1) (fuel + 2) =
      some (reduce_prologue r c op (2 ^ 30 + 1) ++
        (dispatch_compute rp 1024 1 (2 ^ 30 + 1) 1 ++ [round_barrier r c] ++
          dispatch_compute rp 1024 1 (2 ^ 30 + 1) 1)) := by
  have hw : ceil_div_1024f (2 ^ 30 + 1) = 2 ^ 20 := by decide
  have hx : f32_div_ceil (f32_of_int (2 ^ 30 + 1)) (f32_of_int 1024) = 2 ^ 20 := by decide
  have hy : f32_div_ceil (f32_of_int 1) (f32_of_int 1) = 1 := by decide
  refine ⟨by decide, hw, ?_, ?_⟩
  · simp only [dispatch_compute, hx, hy]
  · unfold reduce
    simp only []
    rw [hw, reduce_loop_rounds r c rp (2 ^ 30 + 1) 2 (fuel + 2) (2 ^ 20) (by decide)
      (by decide) (by decide) (fun j hj => by interval_cases j <;> decide) (by omega)]
    rfl

/-- C8: for every `dim` with `1 ≤ dim ≤ 2 ^ 31 - 1` the round loop of `reduce`
terminates. The starting value `num_wgs = (int)ceil(dim / 1024.0f)` lies between 1 and
`2 ^ 21` (and is the exact `ceil(dim / 1024)` up to `dim = 2 ^ 24`); on every value above 1
in that range the update `num_wgs := (int)ceil(num_wgs / 1024.0f)` is the exact ceiling,
stays at least 1 and is strictly smaller; three updates reach exactly 1; and `reduce`
returns its command list whenever it is given fuel for three iterations. -/
theorem reduce_loop_terminates (r c : Buffer) (op rp : Pipeline) (dim : Nat)
    (h1 : 1 ≤ dim) (h2 : dim ≤ 2 ^ 31 - 1) :
    (1 ≤ ceil_div_1024f dim ∧ ceil_div_1024f dim ≤ 2 ^ 21) ∧
    (dim ≤ 2 ^ 24 → ceil_div_1024f dim = (dim + 1023) / 1024) ∧
    (∀ w, 1 < w → w ≤ 2 ^ 21 →
      ceil_div_1024f w = (w + 1023) / 1024 ∧ 1 ≤ ceil_div_1024f w ∧ ceil_div_1024f w < w) ∧
    ceil_div_1024f^[3] (ceil_div_1024f dim) = 1 ∧
    (∀ fuel, 3 ≤ fuel → ∃ cmds, reduce r c op rp dim fuel = some cmds) := by
  have hstart := ceil_div_1024f_start dim h1 h2
  refine ⟨hstart, ?_, ceil_div_1024f_step, ?_, ?_⟩
  · intro h
    rcases Nat.lt_or_ge dim (2 ^ 24) with hlt | hge
    · exact ceil_div_1024f_small dim hlt
    · have : dim = 2 ^ 24 := by omega
      subst this; decide
  · generalize ceil_div_1024f dim = w at hstart
    have e1 := ceil_div_1024f_small w (by omega)
    have e2 := ceil_div_1024f_small ((w + 1023) / 1024) (by omega)
    have e3 := ceil_div_1024f_small (((w + 1023) / 1024 + 1023) / 1024) (by omega)
    simp only [Function.iterate_succ, Function.iterate_zero, Function.comp_apply, id_eq,
      e1, e2, e3]
    omega
  · intro fuel hfuel
    obtain ⟨R, hR3, hR1, hR2⟩ := rounds_exist _ hstart.1 hstart.2
    have hl := reduce_loop_rounds r c rp dim R fuel _ hstart.1 (by omega) hR1 hR2 (by omega)
    exact ⟨_, by unfold reduce; simp only []; rw [hl]; rfl⟩

/-- Witness for C8: `dim = 5000`. -/
theorem reduce_loop_terminates_witness :
    ceil_div_1024f^[3] (ceil_div_1024f 5000) = 1 ∧
    ∃ cmds, reduce ⟨none, 1, 1, 4096, 4, 0, 0, none, ⟨1, 0, 0⟩⟩
      ⟨none, 2, 2, 4, 4, 0, 0, none, ⟨2, 0, 0⟩⟩ ⟨10⟩ ⟨11⟩ 5000 3 = some cmds :=
  have h := reduce_loop_terminates ⟨none, 1, 1, 4096, 4, 0, 0, none, ⟨1, 0, 0⟩⟩
    ⟨none, 2, 2, 4, 4, 0, 0, none, ⟨2, 0, 0⟩⟩ ⟨10⟩ ⟨11⟩ 5000 (by decide) (by decide)
  ⟨h.2.2.2.1, h.2.2.2.2 3 (Nat.le_refl 3)⟩

/-- C9 (as amended): `reduce` does not check `dim`. Called with `dim = 0` it records the
fill of `residual`, the fill barrier, the op dispatch (with a grid of 0 workgroups), the
residual barrier, the fill of `counter` and its barrier; `num_wgs` starts at 0, so the
condition `num_wgs != 1` holds and the round loop is entered; an iteration of the loop
records one reduce dispatch and no barrier and leaves `num_wgs` at 0. -/
theorem reduce_zero_dim_not_rejected (r c : Buffer) (op rp : Pipeline) :
    reduce_prologue r c op 0 =
      [Cmd.fillBuffer r.handle 0 r.size 0,
       Cmd.pipelineBarrier VK_PIPELINE_STAGE_TRANSFER_BIT VK_PIPELINE_STAGE_COMPUTE_SHADER_BIT
         [buffer_barrier r.handle VK_ACCESS_TRANSFER_WRITE_BIT VK_ACCESS_SHADER_WRITE_BIT],
       Cmd.bindPipeline VK_PIPELINE_BIND_POINT_COMPUTE op.handle,
       Cmd.dispatch 0 1 1,
       Cmd.pipelineBarrier VK_PIPELINE_STAGE_COMPUTE_SHADER_BIT
         VK_PIPELINE_STAGE_COMPUTE_SHADER_BIT [res_barrier r],
       Cmd.fillBuffer c.handle 0 c.size 1,
       Cmd.pipelineBarrier VK_PIPELINE_STAGE_TRANSFER_BIT VK_PIPELINE_STAGE_COMPUTE_SHADER_BIT
         [buffer_barrier c.handle VK_ACCESS_TRANSFER_WRITE_BIT
           (VK_ACCESS_SHADER_WRITE_BIT ||| VK_ACCESS_SHADER_READ_BIT)]] ∧
    ceil_div_1024f 0 = 0 ∧ ceil_div_1024f 0 ≠ 1 ∧
    (∀ fuel, reduce_loop r c rp 0 (fuel + 1) (ceil_div_1024f 0) =
      (reduce_loop r c rp 0 fuel 0).map
        (fun rest => [Cmd.bindPipeline VK_PIPELINE_BIND_POINT_COMPUTE rp.handle,
          Cmd.dispatch 0 1 1] ++ rest)) := by
  have h0 : ceil_div_1024f 0 = 0 := by decide
  have hx : f32_div_ceil (f32_of_int 0) (f32_of_int 1024) = 0 := by decide
  have hy : f32_div_ceil (f32_of_int 1) (f32_of_int 1) = 1 := by decide
  refine ⟨?_, h0, by decide, ?_⟩
  · simp [reduce_prologue, dispatch_compute, hx, hy]
  · intro fuel
    simp [reduce_loop, h0, dispatch_compute, hx, hy]

/-- Counterexample to C9 as stated: with `dim = 0` the command list recorded before the
loop is not empty, and the loop condition `num_wgs != 1` is true when the loop is
reached, so that without fuel for an iteration `reduce` cannot return. -/
theorem reduce_zero_dim_records_commands :
    reduce_prologue ⟨none, 1, 1, 4096, 4, 0, 0, none, ⟨1, 0, 0⟩⟩
      ⟨none, 2, 2, 4, 4, 0, 0, none, ⟨2, 0, 0⟩⟩ ⟨10⟩ 0 ≠ [] ∧
    (reduce_prologue ⟨none, 1, 1, 4096, 4, 0, 0, none, ⟨1, 0, 0⟩⟩
      ⟨none, 2, 2, 4, 4, 0, 0, none, ⟨2, 0, 0⟩⟩ ⟨10⟩ 0).length = 7 ∧
    ceil_div_1024f 0 ≠ 1 ∧
    reduce ⟨none, 1, 1, 4096, 4, 0, 0, none, ⟨1, 0, 0⟩⟩
      ⟨none, 2, 2, 4, 4, 0, 0, none, ⟨2, 0, 0⟩⟩ ⟨10⟩ ⟨11⟩ 0 0 = none := by
  decide

/-! ## Memory type selection and buffer creation -/

/-- When no index of the scanned range passes the test, the loop is left without `return`. -/
theorem find_memory_type_loop_none (mem_props : VkPhysicalDeviceMemoryProperties)
    (type_filter : Nat) (props : VkMemoryPropertyFlags) :
    ∀ remaining i,
      (∀ j, i ≤ j → j < i + remaining →
        memory_type_matches mem_props type_filter props j = false) →
      find_memory_type_loop mem_props type_filter props remaining i = none := by
  intro remaining
  induction remaining with
  | zero => intro i _; rfl
  | succ n ih =>
    intro i h
    rw [find_memory_type_loop, h i (Nat.le_refl i) (by omega)]
    simpa using ih (i + 1) (fun j h1 h2 => h j (by omega) (by omega))

/-- Without a matching memory type `find_memory_type` returns `0xFFFFFFFF` to its caller. -/
theorem find_memory_type_of_no_match (mem_props : VkPhysicalDeviceMemoryProperties)
    (type_filter : Nat) (props : VkMemoryPropertyFlags)
    (h : ∀ i, i < mem_props.memoryTypeCount →
      memory_type_matches mem_props type_filter props i = false) :
    find_memory_type mem_props type_filter props = .ok 0xFFFFFFFF := by
  unfold find_memory_type
  rw [find_memory_type_loop_none mem_props type_filter props mem_props.memoryTypeCount 0
    (fun j _ hj => h j (by omega))]
  rfl

/-- The function `find_memory_type` never fails: the assertion of line 16 is on the
constant `true`. -/
theorem find_memory_type_ok (mem_props : VkPhysicalDeviceMemoryProperties)
    (type_filter : Nat) (props : VkMemoryPropertyFlags) :
    ∃ i, find_memory_type mem_props type_filter props = .ok i := by
  unfold find_memory_type
  cases find_memory_type_loop mem_props type_filter props mem_props.memoryTypeCount 0 with
  | none => exact ⟨0xFFFFFFFF, rfl⟩
  | some i => exact ⟨i, rfl⟩

/-- C2 (failing input): a table of two memory types (device-local; host-visible and
host-coherent), `type_filter = 0b11` and `props = HOST_CACHED (0x8)`. No index passes the
test of lines 11-12, and `find_memory_type` returns `0xFFFFFFFF` to its caller instead of
failing; `Buffer::create` then passes that value to `vkAllocateMemory` as
`memoryTypeIndex`. -/
theorem find_memory_type_returns_minus_one :
    (∀ i, i < 2 → memory_type_matches ⟨2, [0x1, 0x6]⟩ 0x3 0x8 i = false) ∧
    find_memory_type ⟨2, [0x1, 0x6]⟩ 0x3 0x8 = .ok 0xFFFFFFFF ∧
    (Buffer.create_direct Buffer.fresh
      { mem_props := ⟨2, [0x1, 0x6]⟩
        vkCreateBuffer := fun _ => some 1
        vkGetBufferMemoryRequirements := fun _ => ⟨256, 16, 0x3⟩
        vkAllocateMemory := fun _ => some 2
        vkFlushMappedMemoryRanges := fun _ _ _ => some () }
      0x80 0x8 VK_SHARING_MODE_EXCLUSIVE 256 none).1 =
      [HostOp.createBuffer ⟨0x80, 256, 0⟩ 1, HostOp.allocateMemory ⟨256, 0xFFFFFFFF⟩ 2,
       HostOp.bind 1] := by
  refine ⟨by decide, rfl, by decide⟩

theorem vk_check_ne_assertion {α : Type} (result : Option α) :
    vk_check result ≠ .error Fatal.assertion_failed := by
  cases result <;> simp [vk_check]

theorem flush_ne_assertion (self : Buffer) (size offset : VkDeviceSize) :
    self.flush size offset ≠ .error Fatal.assertion_failed := by
  unfold Buffer.flush
  cases self.ctx with
  | none => simp
  | some stored =>
    cases h : stored.vkFlushMappedMemoryRanges self.buffer_memory size offset <;>
      simp [vk_check, h]

theorem upload_ne_assertion (self : Buffer)
    (mem_property_flags : VkMemoryPropertyFlags) (size : VkDeviceSize)
    (data : Option (List Nat)) :
    (self.upload_initial_data mem_property_flags size data).2
      ≠ .error Fatal.assertion_failed := by
  unfold Buffer.upload_initial_data
  cases data with
  | none => simp
  | some bytes =>
    simp only []
    split_ifs
    · have := flush_ne_assertion { self with data := none } VK_WHOLE_SIZE 0
      split <;> simp_all
    · simp

/-- The direct path of `Buffer::create` never stops on an assertion. -/
theorem create_direct_ne_assertion (self : Buffer) (ctx : VulkanContext)
    (usage : VkBufferUsageFlags) (mem_property_flags : VkMemoryPropertyFlags)
    (sharing_mode : Nat) (size : VkDeviceSize) (data : Option (List Nat)) :
    (self.create_direct ctx usage mem_property_flags sharing_mode size data).2
      ≠ .error Fatal.assertion_failed := by
  unfold Buffer.create_direct
  simp only []
  split
  · next e he => intro h; exact vk_check_ne_assertion _ (by rw [he]; simp at h; rw [h])
  · split
    · next e he =>
      obtain ⟨i, hi⟩ := find_memory_type_ok ctx.mem_props
        (ctx.vkGetBufferMemoryRequirements ‹_›).memoryTypeBits mem_property_flags
      rw [hi] at he; cases he
    · split
      · next e he => intro h; exact vk_check_ne_assertion _ (by rw [he]; simp at h; rw [h])
      · split
        · next ops1 e he =>
          intro h
          simp at h
          have := upload_ne_assertion _ mem_property_flags size data (by rw [he, h])
          exact this
        · simp

/-- C10: `Buffer::create` with `use_staging = true`. When `mem_property_flags` lacks the
device-local bit the call stops on the fatal assertion of line 14 with no action performed,
in particular before any staging or destination buffer is created; when the bit is present
the assertion passes and the call does not end in an assertion failure. -/
theorem buffer_create_staging_assert (self : Buffer) (ctx : VulkanContext)
    (usage : VkBufferUsageFlags) (mem_property_flags : VkMemoryPropertyFlags)
    (sharing_mode : Nat) (size : VkDeviceSize) (data : Option (List Nat)) :
    ((mem_property_flags &&& VK_MEMORY_PROPERTY_DEVICE_LOCAL_BIT) = 0 →
      self.create ctx usage mem_property_flags sharing_mode size data true
        = ([], .error Fatal.assertion_failed)) ∧
    ((mem_property_flags &&& VK_MEMORY_PROPERTY_DEVICE_LOCAL_BIT) ≠ 0 →
      LUMEN_ASSERT ((mem_property_flags &&& VK_MEMORY_PROPERTY_DEVICE_LOCAL_BIT) != 0)
        = .ok () ∧
      (self.create ctx usage mem_property_flags sharing_mode size data true).2
        ≠ .error Fatal.assertion_failed) := by
  constructor
  · intro h
    simp [Buffer.create, LUMEN_ASSERT, h]
  · intro h
    have ha : LUMEN_ASSERT ((mem_property_flags &&& VK_MEMORY_PROPERTY_DEVICE_LOCAL_BIT) != 0)
        = .ok () := by simp [LUMEN_ASSERT, h]
    refine ⟨ha, ?_⟩
    unfold Buffer.create
    simp only [if_true, ha]
    split
    · next ops1 e he =>
      intro h2
      simp at h2
      exact create_direct_ne_assertion _ ctx _ _ _ size data (by rw [he, h2])
    · split
      · next ops2 e he =>
        intro h2
        simp at h2
        exact create_direct_ne_assertion _ ctx _ _ _ size none (by rw [he, h2])
      · simp

/-- Witness for C10: a staged creation into host-visible, host-coherent memory stops on
the assertion with nothing done; a staged creation into device-local memory does not end
in an assertion failure. -/
theorem buffer_create_staging_assert_witness :
    Buffer.create Buffer.fresh
      { mem_props := ⟨2, [0x1, 0x6]⟩
        vkCreateBuffer := fun info => some (info.usage + 1)
        vkGetBufferMemoryRequirements := fun _ => ⟨256, 16, 0x3⟩
        vkAllocateMemory := fun info => some (info.memoryTypeIndex + 1)
        vkFlushMappedMemoryRanges := fun _ _ _ => some () }
      0x80 0x6 VK_SHARING_MODE_EXCLUSIVE 4 (some [1, 2, 3, 4]) true
      = ([], .error Fatal.assertion_failed) ∧
    (Buffer.create Buffer.fresh
      { mem_props := ⟨2, [0x1, 0x6]⟩
        vkCreateBuffer := fun info => some (info.usage + 1)
        vkGetBufferMemoryRequirements := fun _ => ⟨256, 16, 0x3⟩
        vkAllocateMemory := fun info => some (info.memoryTypeIndex + 1)
        vkFlushMappedMemoryRanges := fun _ _ _ => some () }
      0x80 0x1 VK_SHARING_MODE_EXCLUSIVE 4 (some [1, 2, 3, 4]) true).2
      ≠ .error Fatal.assertion_failed :=
  ⟨(buffer_create_staging_assert Buffer.fresh _ 0x80 0x6 VK_SHARING_MODE_EXCLUSIVE 4
      (some [1, 2, 3, 4])).1 (by decide),
   ((buffer_create_staging_assert Buffer.fresh _ 0x80 0x1 VK_SHARING_MODE_EXCLUSIVE 4
      (some [1, 2, 3, 4])).2 (by decide)).2⟩

/-! ## Memory type selection: the matching case -/

/-- The test of lines 11-12 in terms of bits. -/
theorem memory_type_matches_iff (mem_props : VkPhysicalDeviceMemoryProperties)
    (type_filter : Nat) (props : VkMemoryPropertyFlags) (i : Nat) :
    memory_type_matches mem_props type_filter props i = true ↔
      type_filter.testBit i = true ∧
      (mem_props.memoryTypes.getD i 0 &&& props) = props := by
  unfold memory_type_matches
  have h : (type_filter &&& (1 <<< i) ≠ 0) ↔ type_filter.testBit i = true := by
    rw [Nat.one_shiftLeft, Nat.and_two_pow]
    cases type_filter.testBit i <;> simp
  simp only [Bool.and_eq_true, bne_iff_ne, beq_iff_eq, h]

/-- A flag set that absorbs `props` under AND has every bit of `props`. -/
theorem flags_contain_props (flags props : Nat) (h : (flags &&& props) = props) :
    ∀ bit, props.testBit bit = true → flags.testBit bit = true := by
  intro bit hb
  have := congrArg (fun x => x.testBit bit) h
  simp only [Nat.testBit_and, hb, Bool.and_true] at this
  exact this

/-- What a `return i` of the loop means: `i` is in the scanned range, passes the test, and
no earlier index of the range does. -/
theorem find_memory_type_loop_some (mem_props : VkPhysicalDeviceMemoryProperties)
    (type_filter : Nat) (props : VkMemoryPropertyFlags) :
    ∀ remaining i r,
      find_memory_type_loop mem_props type_filter props remaining i = some r →
      i ≤ r ∧ r < i + remaining ∧ memory_type_matches mem_props type_filter props r = true ∧
      ∀ j, i ≤ j → j < r → memory_type_matches mem_props type_filter props j = false := by
  intro remaining
  induction remaining with
  | zero => intro i r h; simp [find_memory_type_loop] at h
  | succ n ih =>
    intro i r h
    rw [find_memory_type_loop] at h
    by_cases hm : memory_type_matches mem_props type_filter props i = true
    · rw [if_pos hm] at h
      cases h
      exact ⟨Nat.le_refl _, by omega, hm, fun j h1 h2 => by omega⟩
    · rw [if_neg hm] at h
      obtain ⟨h1, h2, h3, h4⟩ := ih (i + 1) r h
      refine ⟨by omega, by omega, h3, ?_⟩
      intro j hj1 hj2
      rcases Nat.eq_or_lt_of_le hj1 with he | hl
      · subst he; simpa using hm
      · exact h4 j hl hj2

/-- C12: when some index below `memoryTypeCount` has its bit set in `type_filter` and
property flags that contain `props`, `find_memory_type` returns the smallest such index:
the result `r` is below `memoryTypeCount`, bit `r` of `type_filter` is set,
`propertyFlags[r]` has every bit of `props`, and no smaller index passes the test. The
result is a function of the table, `type_filter` and `props` alone. -/
theorem find_memory_type_smallest (mem_props : VkPhysicalDeviceMemoryProperties)
    (type_filter : Nat) (props : VkMemoryPropertyFlags)
    (h : ∃ i, i < mem_props.memoryTypeCount ∧ type_filter.testBit i = true ∧
      (mem_props.memoryTypes.getD i 0 &&& props) = props) :
    ∃ r, find_memory_type mem_props type_filter props = .ok r ∧
      r < mem_props.memoryTypeCount ∧
      type_filter.testBit r = true ∧
      (mem_props.memoryTypes.getD r 0 &&& props) = props ∧
      (∀ bit, props.testBit bit = true → (mem_props.memoryTypes.getD r 0).testBit bit = true) ∧
      (∀ j, j < mem_props.memoryTypeCount → type_filter.testBit j = true →
        (mem_props.memoryTypes.getD j 0 &&& props) = props → r ≤ j) := by
  obtain ⟨i, hi, hbit, hflags⟩ := h
  have hmi := (memory_type_matches_iff mem_props type_filter props i).2 ⟨hbit, hflags⟩
  cases hl : find_memory_type_loop mem_props type_filter props mem_props.memoryTypeCount 0 with
  | none =>
    exfalso
    have hnone : ∀ remaining start,
        find_memory_type_loop mem_props type_filter props remaining start = none →
        ∀ j, start ≤ j → j < start + remaining →
          memory_type_matches mem_props type_filter props j = false := by
      intro remaining
      induction remaining with
      | zero => intro start _ j h1 h2; omega
      | succ n ih =>
        intro start hn j h1 h2
        rw [find_memory_type_loop] at hn
        by_cases hm : memory_type_matches mem_props type_filter props start = true
        · rw [if_pos hm] at hn; cases hn
        · rw [if_neg hm] at hn
          rcases Nat.eq_or_lt_of_le h1 with he | hlt
          · subst he; simpa using hm
          · exact ih (start + 1) hn j hlt (by omega)
    have := hnone _ 0 hl i (Nat.zero_le i) (by omega)
    rw [hmi] at this
    cases this
  | some r =>
    obtain ⟨_, h2, h3, h4⟩ := find_memory_type_loop_some mem_props type_filter props _ 0 r hl
    obtain ⟨hb, hf⟩ := (memory_type_matches_iff mem_props type_filter props r).1 h3
    refine ⟨r, by simp [find_memory_type, hl], by omega, hb, hf,
      flags_contain_props _ _ hf, ?_⟩
    intro j _ hjb hjf
    by_contra hlt
    have := h4 j (Nat.zero_le j) (by omega)
    rw [(memory_type_matches_iff mem_props type_filter props j).2 ⟨hjb, hjf⟩] at this
    cases this

/-- Witness for C12: of three memory types the first is excluded by the filter, the second
and third both qualify, and index 1 is returned. -/
theorem find_memory_type_smallest_witness :
    ∃ r, find_memory_type ⟨3, [0x7, 0x6, 0xE]⟩ 0x6 0x6 = .ok r ∧ r < 3 ∧
      (0x6 : Nat).testBit r = true ∧ (([0x7, 0x6, 0xE] : List Nat).getD r 0 &&& 0x6) = 0x6 ∧
      (∀ bit, (0x6 : Nat).testBit bit = true →
        (([0x7, 0x6, 0xE] : List Nat).getD r 0).testBit bit = true) ∧
      (∀ j, j < 3 → (0x6 : Nat).testBit j = true →
        (([0x7, 0x6, 0xE] : List Nat).getD j 0 &&& 0x6) = 0x6 → r ≤ j) :=
  find_memory_type_smallest ⟨3, [0x7, 0x6, 0xE]⟩ 0x6 0x6 ⟨2, by decide, by decide, by decide⟩

/-! ## Render pass construction: attachments and references -/

/-- The loop over the color formats, descriptions: one per format, in order. -/
theorem color_attachment_foldl_fst (clear_color : Bool)
    (initial_layout final_layout : VkImageLayout) (formats : List VkFormat)
    (acc : List VkAttachmentDescription × List VkAttachmentReference) :
    (formats.foldl (color_attachment_step clear_color initial_layout final_layout) acc).1 =
      acc.1 ++ formats.map (fun format =>
          { format := format
            samples := VK_SAMPLE_COUNT_1_BIT
            loadOp :=
              if clear_color then VK_ATTACHMENT_LOAD_OP_CLEAR
              else if initial_layout = VK_IMAGE_LAYOUT_UNDEFINED then
                VK_ATTACHMENT_LOAD_OP_DONT_CARE
              else VK_ATTACHMENT_LOAD_OP_LOAD
            storeOp := VK_ATTACHMENT_STORE_OP_STORE
            stencilLoadOp := VK_ATTACHMENT_LOAD_OP_DONT_CARE
            stencilStoreOp := VK_ATTACHMENT_STORE_OP_DONT_CARE
            initialLayout := initial_layout
            finalLayout := final_layout }) := by
  induction formats generalizing acc with
  | nil => simp
  | cons f fs ih =>
    rw [List.foldl_cons, ih]
    simp [color_attachment_step]

/-- The loop over the color formats, references: reference `j` names the attachment at
position `j` of the list being built. -/
theorem color_attachment_foldl_snd (clear_color : Bool)
    (initial_layout final_layout : VkImageLayout) (formats : List VkFormat)
    (acc : List VkAttachmentDescription × List VkAttachmentReference) :
    (formats.foldl (color_attachment_step clear_color initial_layout final_layout) acc).2 =
      acc.2 ++ (List.range formats.length).map (fun j =>
          { attachment := to_uint32 (acc.1.length + j)
            layout := VK_IMAGE_LAYOUT_COLOR_ATTACHMENT_OPTIMAL }) := by
  induction formats generalizing acc with
  | nil => simp
  | cons f fs ih =>
    rw [List.foldl_cons, ih]
    simp only [color_attachment_step, List.length_cons, List.length_append,
      List.length_singleton, List.range_succ_eq_map, List.map_cons, List.map_map,
      List.append_assoc, List.singleton_append, Nat.add_zero]
    congr 2
    apply List.map_congr_left
    intro j _
    simp only [Function.comp_apply, Nat.succ_eq_add_one, List.length_nil, Nat.zero_add]
    rw [show acc.1.length + 1 + j = acc.1.length + (j + 1) by omega]

/-- C13: for every list of color formats, attachment `j` of the create-info carries
`colorFormats[j]`, for every `j` below the number of formats and in the order of the list,
with load policy CLEAR if `clear_color`, otherwise DONT_CARE if `initial_layout` is
Undefined, otherwise LOAD; the description is the same whatever `clear_depth` and the
depth format are. -/
theorem create_render_pass_color_attachments (formats : List VkFormat) (depth : VkFormat)
    (k : Nat) (clear_color clear_depth : Bool) (initial_layout final_layout : VkImageLayout)
    (j : Nat) (hj : j < formats.length) :
    (render_pass_create_info formats depth k clear_color clear_depth initial_layout
        final_layout).pAttachments[j]? =
      some { format := formats[j]
             samples := VK_SAMPLE_COUNT_1_BIT
             loadOp :=
               if clear_color then VK_ATTACHMENT_LOAD_OP_CLEAR
               else if initial_layout = VK_IMAGE_LAYOUT_UNDEFINED then
                 VK_ATTACHMENT_LOAD_OP_DONT_CARE
               else VK_ATTACHMENT_LOAD_OP_LOAD
             storeOp := VK_ATTACHMENT_STORE_OP_STORE
             stencilLoadOp := VK_ATTACHMENT_LOAD_OP_DONT_CARE
             stencilStoreOp := VK_ATTACHMENT_STORE_OP_DONT_CARE
             initialLayout := initial_layout
             finalLayout := final_layout } ∧
    (∀ (other_depth : VkFormat) (other_clear_depth : Bool),
      (render_pass_create_info formats depth k clear_color clear_depth initial_layout
          final_layout).pAttachments[j]? =
      (render_pass_create_info formats other_depth k clear_color other_clear_depth
          initial_layout final_layout).pAttachments[j]?) := by
  have key : ∀ (d : VkFormat) (cd : Bool),
      (render_pass_create_info formats d k clear_color cd initial_layout
        final_layout).pAttachments[j]? =
      some { format := formats[j]
             samples := VK_SAMPLE_COUNT_1_BIT
             loadOp :=
               if clear_color then VK_ATTACHMENT_LOAD_OP_CLEAR
               else if initial_layout = VK_IMAGE_LAYOUT_UNDEFINED then
                 VK_ATTACHMENT_LOAD_OP_DONT_CARE
               else VK_ATTACHMENT_LOAD_OP_LOAD
             storeOp := VK_ATTACHMENT_STORE_OP_STORE
             stencilLoadOp := VK_ATTACHMENT_LOAD_OP_DONT_CARE
             stencilStoreOp := VK_ATTACHMENT_STORE_OP_DONT_CARE
             initialLayout := initial_layout
             finalLayout := final_layout } := by
    intro d cd
    rw [render_pass_create_info_eq]
    simp only [color_attachment_foldl_fst, List.nil_append, depth_attachment_step]
    by_cases hd : d ≠ VK_FORMAT_UNDEFINED
    · rw [if_pos hd]
      simp only []
      rw [List.getElem?_append_left (by simpa using hj)]
      simp [List.getElem?_map, List.getElem?_eq_getElem hj]
    · rw [if_neg hd]
      simp [List.getElem?_map, List.getElem?_eq_getElem hj]
  exact ⟨key depth clear_depth, fun d cd => by rw [key depth clear_depth, key d cd]⟩

/-- Witness for C13: the second of two color formats, no clear, initial layout Undefined. -/
theorem create_render_pass_color_attachments_witness :
    (render_pass_create_info [44, 37] 126 3 false true VK_IMAGE_LAYOUT_UNDEFINED
        VK_IMAGE_LAYOUT_PRESENT_SRC_KHR).pAttachments[1]? =
      some { format := 37
             samples := VK_SAMPLE_COUNT_1_BIT
             loadOp := VK_ATTACHMENT_LOAD_OP_DONT_CARE
             storeOp := VK_ATTACHMENT_STORE_OP_STORE
             stencilLoadOp := VK_ATTACHMENT_LOAD_OP_DONT_CARE
             stencilStoreOp := VK_ATTACHMENT_STORE_OP_DONT_CARE
             initialLayout := VK_IMAGE_LAYOUT_UNDEFINED
             finalLayout := VK_IMAGE_LAYOUT_PRESENT_SRC_KHR } :=
  (create_render_pass_color_attachments [44, 37] 126 3 false true VK_IMAGE_LAYOUT_UNDEFINED
    VK_IMAGE_LAYOUT_PRESENT_SRC_KHR 1 (by decide)).1


/-- Every subpass of the create-info is the same description: the color references of the
first loop and the optional depth reference. -/
theorem render_pass_subpasses (formats : List VkFormat) (depth : VkFormat) (k : Nat)
    (clear_color clear_depth : Bool) (initial_layout final_layout : VkImageLayout)
    (sp : VkSubpassDescription)
    (hsp : sp ∈ (render_pass_create_info formats depth k clear_color clear_depth
      initial_layout final_layout).pSubpasses) :
    sp.pColorAttachments =
      (formats.foldl (color_attachment_step clear_color initial_layout final_layout)
        ([], [])).2 ∧
    sp.pDepthStencilAttachment =
      (if depth ≠ VK_FORMAT_UNDEFINED then
        some (depth_attachment_step depth clear_depth
          (formats.foldl (color_attachment_step clear_color initial_layout final_layout)
            ([], [])).1).2
       else none) := by
  rw [render_pass_create_info_eq] at hsp
  simp only [subpass_foldl, List.nil_append, List.mem_map, List.mem_range] at hsp
  obtain ⟨i, _, rfl⟩ := hsp
  by_cases hd : depth = VK_FORMAT_UNDEFINED <;> simp [subpass_step, hd]

/-- C18: for a list of `n` color formats (`n` fitting a `uint32_t`). With a depth format
other than Undefined the create-info has `n + 1` attachments, the last of which (index
`n`) is the depth attachment, with load policy CLEAR if `clear_depth` and LOAD otherwise,
whatever `initial_layout` and `clear_color` are, and every subpass references it at index
`n`. With the depth format Undefined there are `n` attachments and no subpass has a depth
reference. In both cases color reference `j` of every subpass names attachment `j`. -/
theorem create_render_pass_depth_attachment (formats : List VkFormat) (depth : VkFormat)
    (k : Nat) (clear_color clear_depth : Bool) (initial_layout final_layout : VkImageLayout)
    (hn : formats.length < 2 ^ 32) :
    (depth ≠ VK_FORMAT_UNDEFINED →
      (render_pass_create_info formats depth k clear_color clear_depth initial_layout
        final_layout).pAttachments.length = formats.length + 1 ∧
      (render_pass_create_info formats depth k clear_color clear_depth initial_layout
        final_layout).pAttachments[formats.length]? =
        some { format := depth
               samples := VK_SAMPLE_COUNT_1_BIT
               loadOp :=
                 if clear_depth then VK_ATTACHMENT_LOAD_OP_CLEAR else VK_ATTACHMENT_LOAD_OP_LOAD
               storeOp := VK_ATTACHMENT_STORE_OP_STORE
               stencilLoadOp := VK_ATTACHMENT_LOAD_OP_DONT_CARE
               stencilStoreOp := VK_ATTACHMENT_STORE_OP_DONT_CARE
               initialLayout := VK_IMAGE_LAYOUT_UNDEFINED
               finalLayout := VK_IMAGE_LAYOUT_DEPTH_STENCIL_ATTACHMENT_OPTIMAL } ∧
      ∀ sp, sp ∈ (render_pass_create_info formats depth k clear_color clear_depth
          initial_layout final_layout).pSubpasses →
        sp.pDepthStencilAttachment =
          some { attachment := formats.length
                 layout := VK_IMAGE_LAYOUT_DEPTH_STENCIL_ATTACHMENT_OPTIMAL }) ∧
    (depth = VK_FORMAT_UNDEFINED →
      (render_pass_create_info formats depth k clear_color clear_depth initial_layout
        final_layout).pAttachments.length = formats.length ∧
      ∀ sp, sp ∈ (render_pass_create_info formats depth k clear_color clear_depth
          initial_layout final_layout).pSubpasses →
        sp.pDepthStencilAttachment = none) ∧
    (∀ sp, sp ∈ (render_pass_create_info formats depth k clear_color clear_depth
        initial_layout final_layout).pSubpasses →
      sp.pColorAttachments.length = formats.length ∧
      ∀ j, j < formats.length →
        sp.pColorAttachments[j]? =
          some { attachment := j, layout := VK_IMAGE_LAYOUT_COLOR_ATTACHMENT_OPTIMAL }) := by
  have hu : ∀ j, j ≤ formats.length → to_uint32 j = j :=
    fun j hj => Nat.mod_eq_of_lt (by omega)
  refine ⟨?_, ?_, ?_⟩
  · intro hd
    refine ⟨?_, ?_, ?_⟩
    · rw [render_pass_create_info_eq]
      simp [depth_attachment_step, hd, color_attachment_foldl_fst]
    · rw [render_pass_create_info_eq]
      simp [depth_attachment_step, hd, color_attachment_foldl_fst]
    · intro sp hsp
      rw [(render_pass_subpasses _ _ _ _ _ _ _ sp hsp).2, if_pos hd]
      simp [depth_attachment_step, hd, color_attachment_foldl_fst, hu formats.length
        (Nat.le_refl _)]
  · intro hd
    refine ⟨?_, ?_⟩
    · rw [render_pass_create_info_eq]
      simp [depth_attachment_step, hd, color_attachment_foldl_fst]
    · intro sp hsp
      rw [(render_pass_subpasses _ _ _ _ _ _ _ sp hsp).2, if_neg (by simp [hd])]
  · intro sp hsp
    rw [(render_pass_subpasses _ _ _ _ _ _ _ sp hsp).1, color_attachment_foldl_snd]
    refine ⟨by simp, ?_⟩
    intro j hj
    simp [List.getElem?_map, List.getElem?_range hj, hu j (Nat.le_of_lt hj)]

/-- Witness for C18: two color formats and a depth format, `clear_depth` off, three
subpasses; the third attachment is the depth attachment with load policy LOAD. -/
theorem create_render_pass_depth_attachment_witness :
    (render_pass_create_info [44, 37] 126 3 true false VK_IMAGE_LAYOUT_UNDEFINED
        VK_IMAGE_LAYOUT_PRESENT_SRC_KHR).pAttachments.length = 3 ∧
    (render_pass_create_info [44, 37] 126 3 true false VK_IMAGE_LAYOUT_UNDEFINED
        VK_IMAGE_LAYOUT_PRESENT_SRC_KHR).pAttachments[2]? =
      some { format := 126
             samples := VK_SAMPLE_COUNT_1_BIT
             loadOp := VK_ATTACHMENT_LOAD_OP_LOAD
             storeOp := VK_ATTACHMENT_STORE_OP_STORE
             stencilLoadOp := VK_ATTACHMENT_LOAD_OP_DONT_CARE
             stencilStoreOp := VK_ATTACHMENT_STORE_OP_DONT_CARE
             initialLayout := VK_IMAGE_LAYOUT_UNDEFINED
             finalLayout := VK_IMAGE_LAYOUT_DEPTH_STENCIL_ATTACHMENT_OPTIMAL } :=
  have h := (create_render_pass_depth_attachment [44, 37] 126 3 true false
    VK_IMAGE_LAYOUT_UNDEFINED VK_IMAGE_LAYOUT_PRESENT_SRC_KHR (by decide)).1 (by decide)
  ⟨h.1, h.2.1⟩

/-- With a barrier that starts with an empty source mask the two source switches agree. -/
theorem old_layout_switch_eq_infer (b : VkImageMemoryBarrier) (s : VkImageLayout)
    (hb : b.srcAccessMask = 0) :
    old_layout_switch b s = (old_layout_switch_infer b s).1 := by
  unfold old_layout_switch old_layout_switch_infer
  split_ifs <;> first | rfl | (cases b; simp_all)

/-- With a barrier that starts with an empty destination mask the two target switches
agree. -/
theorem new_layout_switch_eq_infer (b : VkImageMemoryBarrier) (s : VkImageLayout)
    (hb : b.dstAccessMask = 0) :
    new_layout_switch b s = (new_layout_switch_infer b s).1 := by
  unfold new_layout_switch new_layout_switch_infer
  split_ifs <;> first | rfl | (cases b; simp_all)

/-- C14: given a barrier object that starts with both access masks empty, the
explicit-stage and the stage-inferring `transition_image_layout` build the same barrier,
in particular the same `srcAccessMask` and `dstAccessMask`, for every old and new state
(handled or not) and every caller-supplied pair of stages. -/
theorem transition_entry_points_agree (b0 : VkImageMemoryBarrier) (image : Nat)
    (old_layout new_layout : VkImageLayout) (s d : VkPipelineStageFlags) (r : Nat)
    (hsrc : b0.srcAccessMask = 0) (hdst : b0.dstAccessMask = 0) :
    (transition_image_layout_stages b0 image old_layout new_layout s d r).barrier =
      (transition_image_layout b0 image old_layout new_layout r).barrier ∧
    (transition_image_layout_stages b0 image old_layout new_layout s d r).barrier.srcAccessMask =
      (transition_image_layout b0 image old_layout new_layout r).barrier.srcAccessMask ∧
    (transition_image_layout_stages b0 image old_layout new_layout s d r).barrier.dstAccessMask =
      (transition_image_layout b0 image old_layout new_layout r).barrier.dstAccessMask := by
  have h : (transition_image_layout_stages b0 image old_layout new_layout s d r).barrier =
      (transition_image_layout b0 image old_layout new_layout r).barrier := by
    rw [transition_image_layout_stages_barrier, transition_image_layout_barrier,
      old_layout_switch_eq_infer _ _ (by simpa [init_barrier] using hsrc)]
    apply new_layout_switch_eq_infer
    rw [(old_layout_switch_dst _ _).2]
    simpa [init_barrier] using hdst
  exact ⟨h, by rw [h], by rw [h]⟩

/-- Witness for C14: General to PresentSrc, neither handled, with arbitrary caller stages. -/
theorem transition_entry_points_agree_witness :
    (transition_image_layout_stages ⟨0, 0, 0, 0, 0, 0⟩ 5 VK_IMAGE_LAYOUT_GENERAL
        VK_IMAGE_LAYOUT_PRESENT_SRC_KHR 0x80 0x8 3).barrier =
      (transition_image_layout ⟨0, 0, 0, 0, 0, 0⟩ 5 VK_IMAGE_LAYOUT_GENERAL
        VK_IMAGE_LAYOUT_PRESENT_SRC_KHR 3).barrier :=
  (transition_entry_points_agree ⟨0, 0, 0, 0, 0, 0⟩ 5 VK_IMAGE_LAYOUT_GENERAL
    VK_IMAGE_LAYOUT_PRESENT_SRC_KHR 0x80 0x8 3 rfl rfl).1

/-! ## Buffer creation: actions and contents -/

/-- Lines 7-9 written out: the stored context afterwards is the earlier one if there was
one and the parameter otherwise; no other member changes. -/
theorem adopt_context_eq (self : Buffer) (ctx : VulkanContext) :
    self.adopt_context ctx = { self with ctx := some (self.ctx.getD ctx) } := by
  unfold Buffer.adopt_context
  cases h : self.ctx with
  | none => rfl
  | some stored =>
    cases self
    simp only [Option.getD_some] at h ⊢
    subst h
    rfl

/-- Running lines 7-9 a second time changes nothing, so a nested call of the direct path
sees the object as the outer call left it. -/
theorem create_direct_adopt_context (self : Buffer) (ctx : VulkanContext)
    (usage : VkBufferUsageFlags) (mem_property_flags : VkMemoryPropertyFlags)
    (sharing_mode : Nat) (size : VkDeviceSize) (data : Option (List Nat)) :
    (self.adopt_context ctx).create_direct ctx usage mem_property_flags sharing_mode size data =
      self.create_direct ctx usage mem_property_flags sharing_mode size data := by
  have h : (self.adopt_context ctx).adopt_context ctx = self.adopt_context ctx := by
    rw [adopt_context_eq self ctx]
    rfl
  unfold Buffer.create_direct
  rw [h]

/-- The direct path with every device call succeeding (the flush, when it is reached, on
the device of the stored context): the actions performed and the resulting object,
written out. -/
theorem create_direct_success (self : Buffer) (ctx : VulkanContext)
    (usage : VkBufferUsageFlags) (mem_property_flags : VkMemoryPropertyFlags)
    (sharing_mode : Nat) (size : VkDeviceSize) (data : Option (List Nat))
    (handle memory index : Nat)
    (hcreate : ctx.vkCreateBuffer ⟨usage, size, sharing_mode⟩ = some handle)
    (hindex : find_memory_type ctx.mem_props
      (ctx.vkGetBufferMemoryRequirements handle).memoryTypeBits mem_property_flags = .ok index)
    (halloc : ctx.vkAllocateMemory
      ⟨(ctx.vkGetBufferMemoryRequirements handle).size, index⟩ = some memory)
    (hflush : data ≠ none → (mem_property_flags &&& VK_MEMORY_PROPERTY_HOST_COHERENT_BIT) = 0 →
      (self.ctx.getD ctx).vkFlushMappedMemoryRanges memory VK_WHOLE_SIZE 0 = some ()) :
    self.create_direct ctx usage mem_property_flags sharing_mode size data =
      ([HostOp.createBuffer ⟨usage, size, sharing_mode⟩ handle,
        HostOp.allocateMemory ⟨(ctx.vkGetBufferMemoryRequirements handle).size, index⟩ memory]
        ++ (match data with
            | none => []
            | some bytes =>
              [HostOp.mapMemory handle, HostOp.memcpy handle (bytes.take size),
               HostOp.unmapMemory handle]
              ++ (if (mem_property_flags &&& VK_MEMORY_PROPERTY_HOST_COHERENT_BIT) = 0 then
                    [HostOp.flush memory VK_WHOLE_SIZE 0] else []))
        ++ [HostOp.bind handle],
       .ok { self with
              ctx := some (self.ctx.getD ctx), handle := handle, buffer_memory := memory,
              alignment := (ctx.vkGetBufferMemoryRequirements handle).alignment,
              usage_flags := usage, data := (match data with | none => self.data | some _ => none),
              descriptor := { buffer := handle, offset := 0, range := VK_WHOLE_SIZE } }) := by
  unfold Buffer.create_direct
  simp only [hcreate, vk_check, hindex, halloc, adopt_context_eq]
  cases data with
  | none => simp [Buffer.upload_initial_data, Buffer.prepare_descriptor]
  | some bytes =>
    by_cases hc : (mem_property_flags &&& VK_MEMORY_PROPERTY_HOST_COHERENT_BIT) = 0
    · simp [Buffer.upload_initial_data, Buffer.prepare_descriptor, hc, Buffer.flush, vk_check,
        hflush (by simp) hc]
    · simp [Buffer.upload_initial_data, Buffer.prepare_descriptor, hc]

/-- Writing a full-length block at offset 0 replaces the region. -/
theorem write_at_zero_full (mem bytes : List Nat) (h : bytes.length = mem.length) :
    write_at mem 0 bytes = bytes := by
  simp [write_at, h]

/-- C11: `Buffer::create` with `use_staging = true`, device-local memory and an initial
data block of `size` bytes, every device call succeeding and the two buffer handles
distinct. The actions are, in order: the staging buffer is created with TRANSFER_SRC usage
and memory chosen for HOST_COHERENT | HOST_VISIBLE, mapped, filled with the data and
unmapped; the destination is created with `TRANSFER_DST | usage`, memory chosen for the
requested flags and no initial data; one copy region `(srcOffset 0, dstOffset 0, size)`
from staging to destination is recorded and submitted; then the staging buffer is
destroyed. After these actions the destination buffer holds exactly the input bytes and
the staging buffer is gone. -/
theorem buffer_create_staging_upload (self : Buffer) (ctx : VulkanContext)
    (usage : VkBufferUsageFlags) (mem_property_flags : VkMemoryPropertyFlags)
    (sharing_mode : Nat) (size : VkDeviceSize) (data : List Nat)
    (staging dest staging_memory dest_memory staging_index dest_index : Nat)
    (hlocal : (mem_property_flags &&& VK_MEMORY_PROPERTY_DEVICE_LOCAL_BIT) ≠ 0)
    (hlen : data.length = size)
    (hcs : ctx.vkCreateBuffer ⟨VK_BUFFER_USAGE_TRANSFER_SRC_BIT, size, VK_SHARING_MODE_EXCLUSIVE⟩
      = some staging)
    (his : find_memory_type ctx.mem_props
      (ctx.vkGetBufferMemoryRequirements staging).memoryTypeBits
      (VK_MEMORY_PROPERTY_HOST_COHERENT_BIT ||| VK_MEMORY_PROPERTY_HOST_VISIBLE_BIT)
      = .ok staging_index)
    (has : ctx.vkAllocateMemory
      ⟨(ctx.vkGetBufferMemoryRequirements staging).size, staging_index⟩ = some staging_memory)
    (hcd : ctx.vkCreateBuffer ⟨VK_BUFFER_USAGE_TRANSFER_DST_BIT ||| usage, size, sharing_mode⟩
      = some dest)
    (hid : find_memory_type ctx.mem_props
      (ctx.vkGetBufferMemoryRequirements dest).memoryTypeBits mem_property_flags
      = .ok dest_index)
    (had : ctx.vkAllocateMemory
      ⟨(ctx.vkGetBufferMemoryRequirements dest).size, dest_index⟩ = some dest_memory)
    (hne : staging ≠ dest) :
    self.create ctx usage mem_property_flags sharing_mode size (some data) true =
      ([HostOp.createBuffer
          ⟨VK_BUFFER_USAGE_TRANSFER_SRC_BIT, size, VK_SHARING_MODE_EXCLUSIVE⟩ staging,
        HostOp.allocateMemory
          ⟨(ctx.vkGetBufferMemoryRequirements staging).size, staging_index⟩ staging_memory,
        HostOp.mapMemory staging, HostOp.memcpy staging data, HostOp.unmapMemory staging,
        HostOp.bind staging,
        HostOp.createBuffer ⟨VK_BUFFER_USAGE_TRANSFER_DST_BIT ||| usage, size, sharing_mode⟩
          dest,
        HostOp.allocateMemory
          ⟨(ctx.vkGetBufferMemoryRequirements dest).size, dest_index⟩ dest_memory,
        HostOp.bind dest,
        HostOp.submit [Cmd.copyBuffer staging dest [⟨0, 0, size⟩]],
        HostOp.destroy staging],
       .ok { self with
              ctx := some (self.ctx.getD ctx), handle := dest, buffer_memory := dest_memory,
              alignment := (ctx.vkGetBufferMemoryRequirements dest).alignment,
              usage_flags := VK_BUFFER_USAGE_TRANSFER_DST_BIT ||| usage,
              descriptor := { buffer := dest, offset := 0, range := VK_WHOLE_SIZE } }) ∧
    ∀ mem : DeviceMemory,
      run_host_ops (self.create ctx usage mem_property_flags sharing_mode size
        (some data) true).1 mem dest = some data ∧
      run_host_ops (self.create ctx usage mem_property_flags sharing_mode size
        (some data) true).1 mem staging = none := by
  have ha : LUMEN_ASSERT ((mem_property_flags &&& VK_MEMORY_PROPERTY_DEVICE_LOCAL_BIT) != 0)
      = .ok () := by simp [LUMEN_ASSERT, hlocal]
  have h1 := create_direct_success Buffer.fresh ctx VK_BUFFER_USAGE_TRANSFER_SRC_BIT
    (VK_MEMORY_PROPERTY_HOST_COHERENT_BIT ||| VK_MEMORY_PROPERTY_HOST_VISIBLE_BIT)
    VK_SHARING_MODE_EXCLUSIVE size (some data) staging staging_memory staging_index hcs his has
    (fun _ h => absurd h (by decide))
  have h2 := create_direct_success (self.adopt_context ctx) ctx
    (VK_BUFFER_USAGE_TRANSFER_DST_BIT ||| usage) mem_property_flags sharing_mode size none
    dest dest_memory dest_index hcd hid had (fun h => absurd rfl h)
  have htake : data.take size = data := by rw [← hlen]; exact List.take_length data
  have hcreate : self.create ctx usage mem_property_flags sharing_mode size (some data) true =
      ([HostOp.createBuffer
          ⟨VK_BUFFER_USAGE_TRANSFER_SRC_BIT, size, VK_SHARING_MODE_EXCLUSIVE⟩ staging,
        HostOp.allocateMemory
          ⟨(ctx.vkGetBufferMemoryRequirements staging).size, staging_index⟩ staging_memory,
        HostOp.mapMemory staging, HostOp.memcpy staging data, HostOp.unmapMemory staging,
        HostOp.bind staging,
        HostOp.createBuffer ⟨VK_BUFFER_USAGE_TRANSFER_DST_BIT ||| usage, size, sharing_mode⟩
          dest,
        HostOp.allocateMemory
          ⟨(ctx.vkGetBufferMemoryRequirements dest).size, dest_index⟩ dest_memory,
        HostOp.bind dest,
        HostOp.submit [Cmd.copyBuffer staging dest [⟨0, 0, size⟩]],
        HostOp.destroy staging],
       .ok { self with
              ctx := some (self.ctx.getD ctx), handle := dest, buffer_memory := dest_memory,
              alignment := (ctx.vkGetBufferMemoryRequirements dest).alignment,
              usage_flags := VK_BUFFER_USAGE_TRANSFER_DST_BIT ||| usage,
              descriptor := { buffer := dest, offset := 0, range := VK_WHOLE_SIZE } }) := by
    unfold Buffer.create
    simp only [if_true, ha, h1, h2, htake]
    simp [VK_MEMORY_PROPERTY_HOST_COHERENT_BIT, VK_MEMORY_PROPERTY_HOST_VISIBLE_BIT,
      adopt_context_eq]
  refine ⟨hcreate, ?_⟩
  intro mem
  rw [hcreate]
  have hne2 : dest ≠ staging := fun h => hne h.symm
  simp [run_host_ops, HostOp.exec, Cmd.exec, copy_region, hne, hne2, write_at_zero_full, hlen]

/-- Witness for C11: four bytes uploaded through a staging buffer into device-local
memory; the destination buffer (handle `0x83`) then holds the four bytes. -/
theorem buffer_create_staging_upload_witness :
    run_host_ops (Buffer.create Buffer.fresh
      { mem_props := ⟨2, [0x1, 0x6]⟩
        vkCreateBuffer := fun info => some (info.usage + 1)
        vkGetBufferMemoryRequirements := fun _ => ⟨256, 16, 0x3⟩
        vkAllocateMemory := fun info => some (info.memoryTypeIndex + 10)
        vkFlushMappedMemoryRanges := fun _ _ _ => some () }
      0x80 0x1 VK_SHARING_MODE_EXCLUSIVE 4 (some [1, 2, 3, 4]) true).1
      (fun _ => none) 0x83 = some [1, 2, 3, 4] :=
  ((buffer_create_staging_upload Buffer.fresh
      { mem_props := ⟨2, [0x1, 0x6]⟩
        vkCreateBuffer := fun info => some (info.usage + 1)
        vkGetBufferMemoryRequirements := fun _ => ⟨256, 16, 0x3⟩
        vkAllocateMemory := fun info => some (info.memoryTypeIndex + 10)
        vkFlushMappedMemoryRanges := fun _ _ _ => some () }
      0x80 0x1 VK_SHARING_MODE_EXCLUSIVE 4 [1, 2, 3, 4] 0x2 0x83 11 10 1 0
      (by decide) rfl rfl rfl rfl rfl rfl rfl (by decide)).2 (fun _ => none)).1


/-- C15 (failing input): a default-constructed `Buffer` created on the direct path with
`size = 256` and `mem_property_flags = 0x6`. The call succeeds; the `alignment` and
`usage_flags` members hold the reported alignment and the `usage` argument, but the `size`
member is still 0 and the `mem_property_flags` member is still 0: lines 73 and 75 assign
the parameters to themselves. -/
theorem buffer_create_direct_metadata :
    (Buffer.create Buffer.fresh
      { mem_props := ⟨2, [0x1, 0x6]⟩
        vkCreateBuffer := fun _ => some 1
        vkGetBufferMemoryRequirements := fun _ => ⟨256, 16, 0x3⟩
        vkAllocateMemory := fun _ => some 2
        vkFlushMappedMemoryRanges := fun _ _ _ => some () }
      0x80 0x6 VK_SHARING_MODE_EXCLUSIVE 256 none false).2 =
      .ok { ctx := some
              { mem_props := ⟨2, [0x1, 0x6]⟩
                vkCreateBuffer := fun _ => some 1
                vkGetBufferMemoryRequirements := fun _ => ⟨256, 16, 0x3⟩
                vkAllocateMemory := fun _ => some 2
                vkFlushMappedMemoryRanges := fun _ _ _ => some () },
            handle := 1, buffer_memory := 2, size := 0, alignment := 16,
            usage_flags := 0x80, mem_property_flags := 0, data := none,
            descriptor := { buffer := 1, offset := 0, range := VK_WHOLE_SIZE } } ∧
    (0 : Nat) ≠ 256 ∧ (0 : Nat) ≠ 0x6 :=
  ⟨rfl, by decide, by decide⟩

/-- C19: the direct path of `Buffer::create` with every device call succeeding (the flush,
when it is reached, on the device of the stored context: the one the object already had,
or the parameter `ctx` if it had none). The actions are: create the buffer, allocate its
memory; if initial data is supplied, map, copy and unmap, followed by a flush of the whole
range exactly when the requested memory property flags lack the host-coherent bit; then
bind. So a flush occurs if and only if data is supplied and the memory is not
host-coherent, and with null data none of map, copy, unmap or flush occurs. In every case
the object ends with the default descriptor over the whole buffer (offset 0, range
`VK_WHOLE_SIZE`). -/
theorem buffer_create_direct_actions (self : Buffer) (ctx : VulkanContext)
    (usage : VkBufferUsageFlags) (mem_property_flags : VkMemoryPropertyFlags)
    (sharing_mode : Nat) (size : VkDeviceSize) (data : Option (List Nat))
    (handle memory index : Nat)
    (hcreate : ctx.vkCreateBuffer ⟨usage, size, sharing_mode⟩ = some handle)
    (hindex : find_memory_type ctx.mem_props
      (ctx.vkGetBufferMemoryRequirements handle).memoryTypeBits mem_property_flags = .ok index)
    (halloc : ctx.vkAllocateMemory
      ⟨(ctx.vkGetBufferMemoryRequirements handle).size, index⟩ = some memory)
    (hflush : data ≠ none → (mem_property_flags &&& VK_MEMORY_PROPERTY_HOST_COHERENT_BIT) = 0 →
      (self.ctx.getD ctx).vkFlushMappedMemoryRanges memory VK_WHOLE_SIZE 0 = some ()) :
    (self.create ctx usage mem_property_flags sharing_mode size data false).1 =
      [HostOp.createBuffer ⟨usage, size, sharing_mode⟩ handle,
        HostOp.allocateMemory ⟨(ctx.vkGetBufferMemoryRequirements handle).size, index⟩ memory]
        ++ (match data with
            | none => []
            | some bytes =>
              [HostOp.mapMemory handle, HostOp.memcpy handle (bytes.take size),
               HostOp.unmapMemory handle]
              ++ (if (mem_property_flags &&& VK_MEMORY_PROPERTY_HOST_COHERENT_BIT) = 0 then
                    [HostOp.flush memory VK_WHOLE_SIZE 0] else []))
        ++ [HostOp.bind handle] ∧
    ((∃ m s o, HostOp.flush m s o ∈
        (self.create ctx usage mem_property_flags sharing_mode size data false).1) ↔
      (data ≠ none ∧ (mem_property_flags &&& VK_MEMORY_PROPERTY_HOST_COHERENT_BIT) = 0)) ∧
    (data = none →
      (self.create ctx usage mem_property_flags sharing_mode size data false).1 =
        [HostOp.createBuffer ⟨usage, size, sharing_mode⟩ handle,
         HostOp.allocateMemory ⟨(ctx.vkGetBufferMemoryRequirements handle).size, index⟩ memory,
         HostOp.bind handle]) ∧
    (∃ result, (self.create ctx usage mem_property_flags sharing_mode size data false).2
        = .ok result ∧
      result.descriptor = { buffer := handle, offset := 0, range := VK_WHOLE_SIZE }) := by
  have h := create_direct_success self ctx usage mem_property_flags
    sharing_mode size data handle memory index hcreate hindex halloc hflush
  have hc : self.create ctx usage mem_property_flags sharing_mode size data false =
      self.create_direct ctx usage mem_property_flags sharing_mode size data := by
    simp [Buffer.create, create_direct_adopt_context]
  rw [hc, h]
  refine ⟨rfl, ?_, ?_, ⟨_, rfl, rfl⟩⟩
  · cases data with
    | none => simp
    | some bytes =>
      by_cases hco : (mem_property_flags &&& VK_MEMORY_PROPERTY_HOST_COHERENT_BIT) = 0
      · simp [hco]
      · simp [hco]
  · intro hd
    subst hd
    rfl

/-- Witness for C19: initial data into memory that is host-visible but not host-coherent,
on an object that already stores a context other than the one passed to `create`. The
stored context accepts the flush (the passed one would reject it): map, copy, unmap, then
the flush, then bind. -/
theorem buffer_create_direct_actions_witness :
    (Buffer.create
      ⟨some { mem_props := ⟨0, []⟩
              vkCreateBuffer := fun _ => none
              vkGetBufferMemoryRequirements := fun _ => ⟨0, 0, 0⟩
              vkAllocateMemory := fun _ => none
              vkFlushMappedMemoryRanges := fun _ _ _ => some () },
       0, 0, 0, 0, 0, 0, none, ⟨0, 0, 0⟩⟩
      { mem_props := ⟨2, [0x1, 0x2]⟩
        vkCreateBuffer := fun _ => some 1
        vkGetBufferMemoryRequirements := fun _ => ⟨256, 16, 0x3⟩
        vkAllocateMemory := fun _ => some 2
        vkFlushMappedMemoryRanges := fun _ _ _ => none }
      0x80 0x2 VK_SHARING_MODE_EXCLUSIVE 4 (some [1, 2, 3, 4]) false).1 =
      [HostOp.createBuffer ⟨0x80, 4, 0⟩ 1, HostOp.allocateMemory ⟨256, 1⟩ 2,
       HostOp.mapMemory 1, HostOp.memcpy 1 [1, 2, 3, 4], HostOp.unmapMemory 1,
       HostOp.flush 2 VK_WHOLE_SIZE 0, HostOp.bind 1] :=
  (buffer_create_direct_actions
    ⟨some { mem_props := ⟨0, []⟩
            vkCreateBuffer := fun _ => none
            vkGetBufferMemoryRequirements := fun _ => ⟨0, 0, 0⟩
            vkAllocateMemory := fun _ => none
            vkFlushMappedMemoryRanges := fun _ _ _ => some () },
     0, 0, 0, 0, 0, 0, none, ⟨0, 0, 0⟩⟩
    { mem_props := ⟨2, [0x1, 0x2]⟩
      vkCreateBuffer := fun _ => some 1
      vkGetBufferMemoryRequirements := fun _ => ⟨256, 16, 0x3⟩
      vkAllocateMemory := fun _ => some 2
      vkFlushMappedMemoryRanges := fun _ _ _ => none }
    0x80 0x2 VK_SHARING_MODE_EXCLUSIVE 4 (some [1, 2, 3, 4]) 1 2 1 rfl rfl rfl
    (fun _ _ => rfl)).1

/-- The flush of line 83 runs on the stored context: on an object that already stores a
context whose device rejects the flush, `create` with another context (whose device would
accept it) creates, allocates, maps, copies and unmaps, and then stops on the rejected
flush, before the descriptor is prepared and the buffer bound. -/
theorem buffer_create_direct_flush_on_stored_context :
    Buffer.create
      ⟨some { mem_props := ⟨0, []⟩
              vkCreateBuffer := fun _ => none
              vkGetBufferMemoryRequirements := fun _ => ⟨0, 0, 0⟩
              vkAllocateMemory := fun _ => none
              vkFlushMappedMemoryRanges := fun _ _ _ => none },
       0, 0, 0, 0, 0, 0, none, ⟨0, 0, 0⟩⟩
      { mem_props := ⟨2, [0x1, 0x2]⟩
        vkCreateBuffer := fun _ => some 1
        vkGetBufferMemoryRequirements := fun _ => ⟨256, 16, 0x3⟩
        vkAllocateMemory := fun _ => some 2
        vkFlushMappedMemoryRanges := fun _ _ _ => some () }
      0x80 0x2 VK_SHARING_MODE_EXCLUSIVE 4 (some [1, 2, 3, 4]) false =
      ([HostOp.createBuffer ⟨0x80, 4, 0⟩ 1, HostOp.allocateMemory ⟨256, 1⟩ 2,
        HostOp.mapMemory 1, HostOp.memcpy 1 [1, 2, 3, 4], HostOp.unmapMemory 1],
       .error Fatal.api_rejected) :=
  rfl

/-! ## Reduction scheduling: recorded commands -/

/-- The commands of `dispatch_compute(pipeline, cmd, 1024, 1, dim, 1)`: the grid is
`(num_wgs, 1, 1)` with `num_wgs` the single-precision value `(uint32_t)ceil(dim / 1024.0f)`,
the same expression in every call. -/
theorem dispatch_compute_1024 (pipeline : Pipeline) (dim : Nat) :
    dispatch_compute pipeline 1024 1 dim 1 =
      [Cmd.bindPipeline VK_PIPELINE_BIND_POINT_COMPUTE pipeline.handle,
       Cmd.dispatch (ceil_div_1024f dim) 1 1] := by
  have h1 : f32_of_int 1024 = 1024 := by decide
  have h2 : f32_div_ceil (f32_of_int 1) (f32_of_int 1) = 1 := by decide
  simp only [dispatch_compute, ceil_div_1024f, h1, h2]

/-- Below `2 ^ 24` every dispatch of `reduce` has the grid `(ceil(dim / 1024), 1, 1)`. -/
theorem dispatch_compute_1024_small (pipeline : Pipeline) (dim : Nat) (h : dim < 2 ^ 24) :
    dispatch_compute pipeline 1024 1 dim 1 =
      [Cmd.bindPipeline VK_PIPELINE_BIND_POINT_COMPUTE pipeline.handle,
       Cmd.dispatch ((dim + 1023) / 1024) 1 1] := by
  rw [dispatch_compute_1024, ceil_div_1024f_small dim h]

/-- C16 (failing input `dim = 2 ^ 24 + 1`): the exact `ceil(dim / 1024)` is 16385, but
the op dispatch and both reduce dispatches recorded by `reduce` have the grid
`(16384, 1, 1)`: the same grid in every round, computed from the unscaled `dim`, and one
workgroup short because `dim` is rounded to single precision. -/
theorem reduce_dispatch_grid_single_precision (r c : Buffer) (op rp : Pipeline) (fuel : Nat) :
    (2 ^ 24 + 1 + 1023) / 1024 = 16385 ∧
    dispatch_compute op 1024 1 (2 ^ 24 + 1) 1 =
      [Cmd.bindPipeline VK_PIPELINE_BIND_POINT_COMPUTE op.handle, Cmd.dispatch 16384 1 1] ∧
    reduce r c op rp (2 ^ 24 + 1) (fuel + 2) =
      some (reduce_prologue r c op (2 ^ 24 + 1) ++
        [Cmd.bindPipeline VK_PIPELINE_BIND_POINT_COMPUTE rp.handle, Cmd.dispatch 16384 1 1,
         round_barrier r c,
         Cmd.bindPipeline VK_PIPELINE_BIND_POINT_COMPUTE rp.handle,
         Cmd.dispatch 16384 1 1]) := by
  have hw : ceil_div_1024f (2 ^ 24 + 1) = 16384 := by decide
  refine ⟨by decide, by rw [dispatch_compute_1024, hw], ?_⟩
  rw [reduce_rounds_from_num_wgs r c op rp (2 ^ 24 + 1) 2 (fuel + 2) (by decide) (by decide)
    (by rw [hw]; decide) (fun j hj => by rw [hw]; interval_cases j <;> decide) (by omega),
    dispatch_compute_1024, hw]
  rfl

/-- C20 (failing input `wg_x = 1`, `wg_y = 1`, `width = 2 ^ 24 + 1`, `height = 1`): the
exact `ceil(width / wg_x)` is `2 ^ 24 + 1`, the grid `dispatch_compute` issues is
`(2 ^ 24, 1, 1)`, because `width` is converted to `float` before the division. -/
theorem dispatch_compute_single_precision (pipeline : Pipeline) :
    (2 ^ 24 + 1 + (1 - 1)) / 1 = 2 ^ 24 + 1 ∧
    f32_of_int (2 ^ 24 + 1) = 2 ^ 24 ∧
    dispatch_compute pipeline 1 1 (2 ^ 24 + 1) 1 =
      [Cmd.bindPipeline VK_PIPELINE_BIND_POINT_COMPUTE pipeline.handle,
       Cmd.dispatch (2 ^ 24) 1 1] := by
  have hx : f32_div_ceil (f32_of_int (2 ^ 24 + 1)) (f32_of_int 1) = 2 ^ 24 := by decide
  have hy : f32_div_ceil (f32_of_int 1) (f32_of_int 1) = 1 := by decide
  refine ⟨by decide, by decide, ?_⟩
  simp only [dispatch_compute, hx, hy]

/-! ## Image layout transitions: inferred stages -/

/-- The two stage masks of the stage-inferring overload are the second components of its
two switches. -/
theorem transition_image_layout_stage_masks (b0 : VkImageMemoryBarrier) (image : Nat)
    (old_layout new_layout : VkImageLayout) (r : Nat) :
    (transition_image_layout b0 image old_layout new_layout r).srcStageMask =
      (old_layout_switch_infer (init_barrier b0 image old_layout new_layout r) old_layout).2 ∧
    (transition_image_layout b0 image old_layout new_layout r).dstStageMask =
      (new_layout_switch_infer
        (old_layout_switch_infer (init_barrier b0 image old_layout new_layout r) old_layout).1
        new_layout).2 := ⟨rfl, rfl⟩

/-- The stage a source switch infers is one of five values. -/
theorem old_layout_switch_infer_stage (b : VkImageMemoryBarrier) (s : VkImageLayout) :
    (old_layout_switch_infer b s).2 ∈
      [VK_PIPELINE_STAGE_TOP_OF_PIPE_BIT, VK_PIPELINE_STAGE_TRANSFER_BIT,
       VK_PIPELINE_STAGE_COLOR_ATTACHMENT_OUTPUT_BIT, VK_PIPELINE_STAGE_BOTTOM_OF_PIPE_BIT,
       VK_PIPELINE_STAGE_ALL_COMMANDS_BIT] := by
  unfold old_layout_switch_infer
  split_ifs <;> simp only [] <;> decide

/-- The stage a target switch infers is one of five values; the value assigned for
TransferDst is the access flag `VK_ACCESS_TRANSFER_WRITE_BIT`, numerically the transfer
stage. -/
theorem new_layout_switch_infer_stage (b : VkImageMemoryBarrier) (s : VkImageLayout) :
    (new_layout_switch_infer b s).2 ∈
      [VK_PIPELINE_STAGE_TOP_OF_PIPE_BIT, VK_PIPELINE_STAGE_TRANSFER_BIT,
       VK_PIPELINE_STAGE_COLOR_ATTACHMENT_OUTPUT_BIT, VK_PIPELINE_STAGE_BOTTOM_OF_PIPE_BIT,
       VK_PIPELINE_STAGE_ALL_COMMANDS_BIT] := by
  unfold new_layout_switch_infer
  split_ifs <;> simp only [] <;> decide

/-- Each of the five stages is a single non-zero bit. -/
theorem inferred_stage_single_bit (stage : VkPipelineStageFlags)
    (h : stage ∈
      [VK_PIPELINE_STAGE_TOP_OF_PIPE_BIT, VK_PIPELINE_STAGE_TRANSFER_BIT,
       VK_PIPELINE_STAGE_COLOR_ATTACHMENT_OUTPUT_BIT, VK_PIPELINE_STAGE_BOTTOM_OF_PIPE_BIT,
       VK_PIPELINE_STAGE_ALL_COMMANDS_BIT]) :
    stage ≠ 0 ∧ ∃ k, stage = 2 ^ k := by
  simp only [List.mem_cons, List.mem_singleton, List.not_mem_nil, or_false] at h
  rcases h with h | h | h | h | h <;> subst h
  · exact ⟨by decide, 0, by decide⟩
  · exact ⟨by decide, 12, by decide⟩
  · exact ⟨by decide, 10, by decide⟩
  · exact ⟨by decide, 13, by decide⟩
  · exact ⟨by decide, 16, by decide⟩

/-- C21: in the stage-inferring `transition_image_layout`, for every old state and every
new state (handled or not) and every initial barrier object, the source stage mask and the
destination stage mask passed to the pipeline barrier are each one of top-of-pipe,
transfer, color-attachment-output, bottom-of-pipe and all-commands, hence a single bit
and not zero: the initial value 0 of lines 146-147 never reaches the barrier. -/
theorem transition_inferred_stages (b0 : VkImageMemoryBarrier) (image : Nat)
    (old_layout new_layout : VkImageLayout) (r : Nat) :
    ((transition_image_layout b0 image old_layout new_layout r).srcStageMask ∈
        [VK_PIPELINE_STAGE_TOP_OF_PIPE_BIT, VK_PIPELINE_STAGE_TRANSFER_BIT,
         VK_PIPELINE_STAGE_COLOR_ATTACHMENT_OUTPUT_BIT, VK_PIPELINE_STAGE_BOTTOM_OF_PIPE_BIT,
         VK_PIPELINE_STAGE_ALL_COMMANDS_BIT] ∧
      (transition_image_layout b0 image old_layout new_layout r).srcStageMask ≠ 0 ∧
      ∃ k, (transition_image_layout b0 image old_layout new_layout r).srcStageMask = 2 ^ k) ∧
    ((transition_image_layout b0 image old_layout new_layout r).dstStageMask ∈
        [VK_PIPELINE_STAGE_TOP_OF_PIPE_BIT, VK_PIPELINE_STAGE_TRANSFER_BIT,
         VK_PIPELINE_STAGE_COLOR_ATTACHMENT_OUTPUT_BIT, VK_PIPELINE_STAGE_BOTTOM_OF_PIPE_BIT,
         VK_PIPELINE_STAGE_ALL_COMMANDS_BIT] ∧
      (transition_image_layout b0 image old_layout new_layout r).dstStageMask ≠ 0 ∧
      ∃ k, (transition_image_layout b0 image old_layout new_layout r).dstStageMask = 2 ^ k) := by
  obtain ⟨hs, hd⟩ := transition_image_layout_stage_masks b0 image old_layout new_layout r
  have h1 := old_layout_switch_infer_stage (init_barrier b0 image old_layout new_layout r)
    old_layout
  have h2 := new_layout_switch_infer_stage
    (old_layout_switch_infer (init_barrier b0 image old_layout new_layout r) old_layout).1
    new_layout
  rw [← hs] at h1
  rw [← hd] at h2
  exact ⟨⟨h1, inferred_stage_single_bit _ h1⟩, ⟨h2, inferred_stage_single_bit _ h2⟩⟩

/-- C22: in the stage-inferring `transition_image_layout` the destination stage for the new
state TransferDst, whatever the old state, is the value of `VK_ACCESS_TRANSFER_WRITE_BIT`
that line 199 assigns, `0x1000`; this is the value of `VK_PIPELINE_STAGE_TRANSFER_BIT`,
the transfer stage, and it is the source stage the same function infers for the old
state TransferDst, whatever the new state. -/
theorem transition_transfer_dst_stage (b0 : VkImageMemoryBarrier) (image : Nat)
    (old_layout new_layout : VkImageLayout) (r : Nat) :
    (transition_image_layout b0 image old_layout VK_IMAGE_LAYOUT_TRANSFER_DST_OPTIMAL
        r).dstStageMask = VK_ACCESS_TRANSFER_WRITE_BIT ∧
    VK_ACCESS_TRANSFER_WRITE_BIT = 0x1000 ∧ VK_PIPELINE_STAGE_TRANSFER_BIT = 0x1000 ∧
    (transition_image_layout b0 image old_layout VK_IMAGE_LAYOUT_TRANSFER_DST_OPTIMAL
        r).dstStageMask = VK_PIPELINE_STAGE_TRANSFER_BIT ∧
    (transition_image_layout b0 image VK_IMAGE_LAYOUT_TRANSFER_DST_OPTIMAL new_layout
        r).srcStageMask = VK_PIPELINE_STAGE_TRANSFER_BIT ∧
    (transition_image_layout b0 image old_layout VK_IMAGE_LAYOUT_TRANSFER_DST_OPTIMAL
        r).dstStageMask =
      (transition_image_layout b0 image VK_IMAGE_LAYOUT_TRANSFER_DST_OPTIMAL new_layout
        r).srcStageMask := by
  have hd : (transition_image_layout b0 image old_layout VK_IMAGE_LAYOUT_TRANSFER_DST_OPTIMAL
      r).dstStageMask = VK_ACCESS_TRANSFER_WRITE_BIT := by
    rw [(transition_image_layout_stage_masks _ _ _ _ _).2]
    simp [new_layout_switch_infer]
  have hs : (transition_image_layout b0 image VK_IMAGE_LAYOUT_TRANSFER_DST_OPTIMAL new_layout
      r).srcStageMask = VK_PIPELINE_STAGE_TRANSFER_BIT := by
    rw [(transition_image_layout_stage_masks _ _ _ _ _).1]
    simp [old_layout_switch_infer, VK_IMAGE_LAYOUT_TRANSFER_DST_OPTIMAL,
      VK_IMAGE_LAYOUT_UNDEFINED, VK_IMAGE_LAYOUT_PREINITIALIZED,
      VK_IMAGE_LAYOUT_COLOR_ATTACHMENT_OPTIMAL,
      VK_IMAGE_LAYOUT_DEPTH_STENCIL_ATTACHMENT_OPTIMAL, VK_IMAGE_LAYOUT_TRANSFER_SRC_OPTIMAL]
  have he : VK_ACCESS_TRANSFER_WRITE_BIT = VK_PIPELINE_STAGE_TRANSFER_BIT := rfl
  exact ⟨hd, rfl, rfl, by rw [hd, he], hs, by rw [hd, hs, he]⟩

end Lumen
